import Mathlib

/-!
Verification development for the AVIENTER 2D rocket-flight simulator
(`src/components/rocket/RocketPhysics.jsx` and its evolutionary variant).

The JavaScript number type is modelled by `ℝ`: arithmetic is total
(division by zero yields `0` in Lean), and the float-only values
`NaN`/`Infinity` have no counterpart, so `isFinite`/`isNaN` guards are
translated to the exact-arithmetic condition under which the guarded
expression would be non-finite in IEEE semantics, and `try`/`catch`
blocks (never triggered by total real arithmetic) are dropped.  All
lookups into `RocketConstants` (a module of the repository that is not
part of the staged sources) are modelled as free parameters: motor
thrust tables, material moduli, wind-profile exponents, the launch-rail
length, and the attitude-response interval.  Every theorem below is
universally quantified over those parameters, so it holds whatever the
missing constants are.
-/

/-- Modelled from the spec: `mmToM` of `RocketConstants` (not in src/) —
"all geometric lengths are expressed in millimeters at the interface
boundary and converted to meters internally". -/
noncomputable def mmToM (x : ℝ) : ℝ := x / 1000

/-- Modelled from the spec: `gToKg` of `RocketConstants` (not in src/) —
mass is supplied in grams and used in kilograms. -/
noncomputable def gToKg (x : ℝ) : ℝ := x / 1000

/-- Nose-cone shape enumeration (`cone | parabola | ogive`). -/
inductive NoseShape where
  | cone
  | parabola
  | ogive
deriving DecidableEq

/-- Static rocket geometry, the fields `calculateProjectedArea` and
`calculateVolume` destructure from the `rocketParams` object. -/
structure RocketParams where
  noseShape : NoseShape
  noseHeight : ℝ
  bodyHeight : ℝ
  bodyWidth : ℝ
  finHeight : ℝ
  finBaseWidth : ℝ
  finTipWidth : ℝ
  finSweepLength : ℝ
  finThickness : ℝ
  finCount : ℕ

/-- The record `calculateProjectedArea` returns.  The variant in
`src/unnamed/part_001` also returns `noseArea`; the zeroed error profile
of the source omits that key, which we model as `0`. -/
structure AreaProfile where
  frontalArea : ℝ
  sideArea : ℝ
  noseArea : ℝ
  finArea : ℝ
  totalFinArea : ℝ
  angledArea : ℝ

/-- The all-zero profile returned on invalid input
(`{ frontalArea: 0, sideArea: 0, finArea: 0, totalFinArea: 0, angledArea: 0 }`). -/
def zeroAreaProfile : AreaProfile :=
  { frontalArea := 0, sideArea := 0, noseArea := 0, finArea := 0
    totalFinArea := 0, angledArea := 0 }

/-- Core of `calculateProjectedArea` (src/unnamed/part_001 lines 58-122),
after the validation boundary has accepted the parameters.  The 3-fin
branch applies the side-view foreshortening factor `1.73 / 2` and
subtracts the body-silhouette overlap term; note that the branch test
`finSweepLength + finTipWidth >= finBaseWidth` is taken on the raw
millimeter values while the overlap formula mixes the converted meter
values, exactly as in the source. -/
noncomputable def calculateProjectedAreaCore (p : RocketParams) : AreaProfile :=
  let noseHeight_m := mmToM p.noseHeight
  let bodyHeight_m := mmToM p.bodyHeight
  let bodyWidth_m := mmToM p.bodyWidth
  let bodyRadius_m := bodyWidth_m / 2
  let finHeight_m := mmToM p.finHeight
  let finBaseWidth_m := mmToM p.finBaseWidth
  let finTipWidth_m := mmToM p.finTipWidth
  let frontalArea := Real.pi * bodyRadius_m ^ 2 + (p.finHeight * p.finThickness) * 4 * 0.0000001
  let bodyArea := bodyWidth_m * bodyHeight_m
  let noseArea :=
    match p.noseShape with
    | NoseShape.cone => 0.5 * bodyWidth_m * noseHeight_m
    | NoseShape.parabola => (2 / 3) * bodyWidth_m * noseHeight_m
    | NoseShape.ogive => (2 / 3) * bodyWidth_m * noseHeight_m
  let finArea :=
    if p.finCount = 3 then
      let adjustedFinHeight := finHeight_m * 1.73 / 2
      let overlapFinBaseWidth :=
        if p.finBaseWidth ≤ p.finSweepLength + p.finTipWidth then
          (((finTipWidth_m - finBaseWidth_m) * finBaseWidth_m * 0.078 / finHeight_m)
            + finBaseWidth_m) - finTipWidth_m * bodyWidth_m * 0.078 / finHeight_m
        else
          ((finTipWidth_m - finBaseWidth_m) * finBaseWidth_m * 0.078 / finHeight_m)
            + finBaseWidth_m
      (adjustedFinHeight * (finBaseWidth_m + finTipWidth_m) / 2)
        - ((overlapFinBaseWidth + finBaseWidth_m)
            * ((bodyWidth_m / 2) - bodyWidth_m * 1.73 / 4) / 2)
    else
      finHeight_m * (finBaseWidth_m + finTipWidth_m) / 2
  let totalFinArea := finArea * 2
  let sideArea := bodyArea + noseArea + totalFinArea
  let angledArea := Real.sqrt (frontalArea ^ 2 + sideArea ^ 2)
  { frontalArea := frontalArea, sideArea := sideArea, noseArea := noseArea
    finArea := finArea, totalFinArea := totalFinArea, angledArea := angledArea }

/-- The `rocketParams` argument as it arrives from the untyped interface:
each required geometry field is `none` when missing or non-numeric
(JavaScript `typeof x !== 'number'`).  `finCount` defaults to 3 in the
source destructuring and is not validated. -/
structure RawRocketParams where
  noseShape : NoseShape
  noseHeight : Option ℝ
  bodyHeight : Option ℝ
  bodyWidth : Option ℝ
  finHeight : Option ℝ
  finBaseWidth : Option ℝ
  finTipWidth : Option ℝ
  finSweepLength : Option ℝ
  finThickness : Option ℝ
  finCount : ℕ

/-- The validation boundary of `calculateProjectedArea` (part_001 lines
36-56): all eight numeric fields must be present. -/
def validateRocketParams (r : RawRocketParams) : Option RocketParams :=
  match r.noseHeight, r.bodyHeight, r.bodyWidth, r.finHeight, r.finBaseWidth,
      r.finTipWidth, r.finThickness, r.finSweepLength with
  | some nh, some bh, some bw, some fh, some fb, some ft, some fth, some fs =>
      some { noseShape := r.noseShape, noseHeight := nh, bodyHeight := bh
             bodyWidth := bw, finHeight := fh, finBaseWidth := fb
             finTipWidth := ft, finSweepLength := fs, finThickness := fth
             finCount := r.finCount }
  | _, _, _, _, _, _, _, _ => none

/-- `calculateProjectedArea` with its defensive boundary: a missing
object (`none`) or any missing/non-numeric required field yields the
zeroed profile; the function never throws. -/
noncomputable def calculateProjectedArea (q : Option RawRocketParams) : AreaProfile :=
  match q with
  | none => zeroAreaProfile
  | some r =>
    match validateRocketParams r with
    | none => zeroAreaProfile
    | some p => calculateProjectedAreaCore p

/-- The record `calculateVolume` returns. -/
structure VolumeProfile where
  bodyVolume : ℝ
  noseVolume : ℝ
  totalVolume : ℝ

/-- `calculateVolume` (RocketPhysics.jsx lines 105-136, identical in
part_001): cylinder body plus shape-dependent nose solid. -/
noncomputable def calculateVolume (p : RocketParams) : VolumeProfile :=
  let noseHeight_m := mmToM p.noseHeight
  let bodyHeight_m := mmToM p.bodyHeight
  let bodyRadius_m := mmToM p.bodyWidth / 2
  let bodyVolume := Real.pi * bodyRadius_m ^ 2 * bodyHeight_m
  let noseVolume :=
    match p.noseShape with
    | NoseShape.cone => (1 / 3) * Real.pi * bodyRadius_m ^ 2 * noseHeight_m
    | NoseShape.parabola => (1 / 2) * Real.pi * bodyRadius_m ^ 2 * noseHeight_m
    | NoseShape.ogive => (2 / 3) * Real.pi * bodyRadius_m ^ 2 * noseHeight_m
  { bodyVolume := bodyVolume, noseVolume := noseVolume
    totalVolume := bodyVolume + noseVolume }

/-- The fin-pressure-center position of `calculateCenterOfPressure`
(RocketPhysics.jsx lines 160-163): the only output of that function
that the second flight-path variant writes back onto its `rocketParams`
argument (line 1437). -/
noncomputable def rocketPhysics_finCp (p : RocketParams) : ℝ :=
  let finCP_single :=
    ((p.finSweepLength + p.finTipWidth) ^ 2 - p.finSweepLength ^ 2
      + p.finBaseWidth ^ 2 + (p.finSweepLength + p.finTipWidth) * p.finBaseWidth)
    / (3 * ((p.finSweepLength + p.finTipWidth) + p.finBaseWidth - p.finSweepLength))
  p.noseHeight + p.bodyHeight - p.finBaseWidth + finCP_single

/-- The mutable `rocketParams` object as the second `calculateFlightPath`
variant sees it: the geometry, the mass/CG data it reads, and the
`finCp` slot (absent, i.e. `none`, until the run writes it). -/
structure RocketParamsDyn where
  geom : RocketParams
  centerOfGravity : ℝ
  weight : ℝ
  finCp : Option ℝ

/-- Effect of the second `calculateFlightPath` variant
(RocketPhysics.jsx lines 1392-2224) on its `rocketParams` argument: the
single assignment `rocketParams.finCp = centerOfPressure.finCp` at line
1437 is the only write to the argument in the function body, every other
field is only read. -/
noncomputable def calculateFlightPath_v2_paramsUpdate (p : RocketParamsDyn) : RocketParamsDyn :=
  { p with finCp := some (rocketPhysics_finCp p.geom) }

/-- The minimum-magnitude floor applied to every computed moment
(`MIN_MOMENT = 0.00001` in each moment function): a nonzero moment
smaller in magnitude than the floor is replaced by `sign * floor`. -/
noncomputable def minMomentFloor (m : ℝ) : ℝ :=
  if 0 < |m| ∧ |m| < 0.00001 then Real.sign m * 0.00001 else m

/-- Magnitude part of `calculateLiftMoment` (RocketPhysics.jsx lines
443-455): lift coefficient `0.6 * angleOfAttack`, dynamic pressure with
the squared velocity capped at 10000. -/
noncomputable def liftMomentMagnitude (velocity omega flightAngle sideArea
    aerodynamicCenter centerOfGravity : ℝ) : ℝ :=
  let velocitySquared := min (velocity * velocity) 10000
  let angleOfAttack := omega - flightAngle
  let liftCoefficient := 0.6 * angleOfAttack
  |liftCoefficient * 0.5 * 1.225 * velocitySquared * sideArea
    * (aerodynamicCenter - centerOfGravity) * 0.001|

/-- `calculateLiftMoment` (RocketPhysics.jsx lines 443-477; identical in
part_001): negative when `(aerodynamicCenter ≥ CG and angleOfAttack < 0)
or (aerodynamicCenter < CG and angleOfAttack ≥ 0)`, positive otherwise;
minimum-magnitude floor; 20% amplification past 0.5 rad of attack.  The
unused `rocketParams` argument of the source signature is dropped. -/
noncomputable def calculateLiftMoment (velocity omega flightAngle sideArea
    aerodynamicCenter centerOfGravity : ℝ) : ℝ :=
  let angleOfAttack := omega - flightAngle
  let momentMagnitude := liftMomentMagnitude velocity omega flightAngle sideArea
    aerodynamicCenter centerOfGravity
  let finalMoment :=
    if (centerOfGravity ≤ aerodynamicCenter ∧ angleOfAttack < 0)
        ∨ (aerodynamicCenter < centerOfGravity ∧ 0 ≤ angleOfAttack) then
      -momentMagnitude
    else
      momentMagnitude
  if 0 < |finalMoment| ∧ |finalMoment| < 0.00001 then Real.sign finalMoment * 0.00001
  else if 0.5 < |angleOfAttack| then finalMoment * 1.2
  else finalMoment

/-- Magnitude part of `calculateDragMoment` (RocketPhysics.jsx lines
479-489): quadratic-in-angle drag coefficient. -/
noncomputable def dragMomentMagnitude (velocity omega flightAngle sideArea
    aerodynamicCenter centerOfGravity : ℝ) : ℝ :=
  let velocitySquared := min (velocity * velocity) 10000
  let angleOfAttack := omega - flightAngle
  let dragCoefficient := 0.01 * angleOfAttack ^ 2 - 0.02 * angleOfAttack + 0.63
  |dragCoefficient * 0.5 * 1.225 * velocitySquared * sideArea
    * (aerodynamicCenter - centerOfGravity) * 0.001|

/-- `calculateDragMoment` (RocketPhysics.jsx lines 479-507): same sign
rule as the lift moment (negative under the condition), with the
minimum-magnitude floor and no amplification step. -/
noncomputable def calculateDragMoment (velocity omega flightAngle sideArea
    aerodynamicCenter centerOfGravity : ℝ) : ℝ :=
  let angleOfAttack := omega - flightAngle
  let momentMagnitude := dragMomentMagnitude velocity omega flightAngle sideArea
    aerodynamicCenter centerOfGravity
  let finalMoment :=
    if (centerOfGravity ≤ aerodynamicCenter ∧ angleOfAttack < 0)
        ∨ (aerodynamicCenter < centerOfGravity ∧ 0 ≤ angleOfAttack) then
      -momentMagnitude
    else
      momentMagnitude
  minMomentFloor finalMoment

/-- Magnitude part of `calculateWindMoment` (RocketPhysics.jsx lines
509-523): fin and body crosswind forces, projected by `cos omega`, times
the lever arm from the overall pressure center to the CG. -/
noncomputable def windMomentMagnitude (noseHeight bodyDiameter bodyHeight windSpeed
    omega totalFinArea centerOfPressure centerOfGravity : ℝ) : ℝ :=
  let safeWindSpeed := max (-25) (min 25 windSpeed)
  let Dwf := 9.81 * 0.05 * safeWindSpeed ^ 2 * totalFinArea
  let Dwb := 0.23 * 0.5 * 1.225 * safeWindSpeed ^ 2 * bodyDiameter
    * (bodyHeight + noseHeight) / 1000000
  let cosAngle := Real.cos omega
  |(Dwf + Dwb) * cosAngle * (centerOfPressure - centerOfGravity) * 0.001|

/-- `calculateWindMoment` (RocketPhysics.jsx lines 509-541; identical in
part_001 up to an unused extra argument): POSITIVE when
`(centerOfPressure ≥ CG and windSpeed < 0) or (centerOfPressure < CG and
windSpeed ≥ 0)`, negative otherwise — the sign rule is the mirror image
of the lift/drag one. -/
noncomputable def calculateWindMoment (noseHeight bodyDiameter bodyHeight windSpeed
    omega totalFinArea centerOfPressure centerOfGravity : ℝ) : ℝ :=
  let momentMagnitude := windMomentMagnitude noseHeight bodyDiameter bodyHeight
    windSpeed omega totalFinArea centerOfPressure centerOfGravity
  let finalMoment :=
    if (centerOfGravity ≤ centerOfPressure ∧ windSpeed < 0)
        ∨ (centerOfPressure < centerOfGravity ∧ 0 ≤ windSpeed) then
      momentMagnitude
    else
      -momentMagnitude
  minMomentFloor finalMoment

/-- Magnitude part of `calculateThrustMoment` (RocketPhysics.jsx lines
572-582): thrust applied at the tail (`noseHeight + bodyHeight`). -/
noncomputable def thrustMomentMagnitude (thrust centerOfGravity omega flightAngle
    noseHeight bodyHeight : ℝ) : ℝ :=
  let angleOfAttack := omega - flightAngle
  let thrustPosition := noseHeight + bodyHeight
  |thrust * Real.sin angleOfAttack * Real.cos angleOfAttack
    * (thrustPosition - centerOfGravity) * 0.001|

/-- `calculateThrustMoment` (RocketPhysics.jsx lines 572-600; identical
in part_001): POSITIVE when `(thrustPosition ≥ CG and angleOfAttack < 0)
or (thrustPosition < CG and angleOfAttack ≥ 0)`, negative otherwise. -/
noncomputable def calculateThrustMoment (thrust centerOfGravity omega flightAngle
    noseHeight bodyHeight : ℝ) : ℝ :=
  let angleOfAttack := omega - flightAngle
  let thrustPosition := noseHeight + bodyHeight
  let momentMagnitude := thrustMomentMagnitude thrust centerOfGravity omega
    flightAngle noseHeight bodyHeight
  let finalMoment :=
    if (centerOfGravity ≤ thrustPosition ∧ angleOfAttack < 0)
        ∨ (thrustPosition < centerOfGravity ∧ 0 ≤ angleOfAttack) then
      momentMagnitude
    else
      -momentMagnitude
  minMomentFloor finalMoment

/-- Magnitude part of `calculateFinMoment` (src/unnamed/part_001 lines
789-825): fin-lean area projected by `sin angleOfAttack`, an
angle-proportional drag coefficient, and the arm from the fin pressure
center to the CG (the source converts `finCp` to meters twice, and
compares the meter value against the millimeter CG; kept as written). -/
noncomputable def finMomentMagnitude (finHeight finBaseWidth : ℝ) (finCount : ℕ)
    (velocity omega flightAngle finCp centerOfGravity : ℝ) : ℝ :=
  let finHeight_m := mmToM finHeight
  let finBaseWidth_m := mmToM finBaseWidth
  let finCP_m := mmToM finCp
  let angleOfAttack := omega - flightAngle
  let finLeanArea :=
    if finCount = 3 then
      finHeight_m * (1.732 / 2) * finBaseWidth_m * Real.sin angleOfAttack
    else
      finHeight_m * finBaseWidth_m * Real.sin angleOfAttack
  let totalLeanFinArea := finLeanArea * 2
  let cd := 0.3 / (5 * 3.14 / 180) * angleOfAttack
  let dragOfFinTilt := cd * 0.5 * 1.225 * velocity * velocity * totalLeanFinArea
  let momentArm := mmToM |finCP_m - centerOfGravity|
  |dragOfFinTilt * momentArm * Real.sign angleOfAttack|

/-- `calculateFinMoment` (src/unnamed/part_001 lines 789-843): POSITIVE
when `(finCP_m ≥ CG and angleOfAttack < 0) or (finCP_m < CG and
angleOfAttack ≥ 0)`, negative otherwise.  The unused `rocketParams`
argument of the source signature is dropped. -/
noncomputable def calculateFinMoment (finHeight finBaseWidth : ℝ) (finCount : ℕ)
    (velocity omega flightAngle finCp centerOfGravity : ℝ) : ℝ :=
  let finCP_m := mmToM finCp
  let angleOfAttack := omega - flightAngle
  let momentMagnitude := finMomentMagnitude finHeight finBaseWidth finCount
    velocity omega flightAngle finCp centerOfGravity
  let finalMoment :=
    if (centerOfGravity ≤ finCP_m ∧ angleOfAttack < 0)
        ∨ (finCP_m < centerOfGravity ∧ 0 ≤ angleOfAttack) then
      momentMagnitude
    else
      -momentMagnitude
  minMomentFloor finalMoment

/-- `calculateFinDivergenceSpeed` (RocketPhysics.jsx lines 315-348,
identical in part_001).  The material lookup `FIN_MATERIALS[finMaterial]`
lives in the missing `RocketConstants` module, so the shear modulus `G`
is taken as a parameter.  `Math.pow(x, 0.5)` is modelled as `Real.sqrt`
(they agree for non-negative `x`; a negative radicand is IEEE `NaN`,
which exact arithmetic cannot represent). -/
noncomputable def calculateFinDivergenceSpeed (finHeight finBaseWidth finTipWidth
    finSweepLength finThickness G : ℝ) : ℝ :=
  let finHeight_m := mmToM finHeight
  let finBaseWidth_m := mmToM finBaseWidth
  let finTipWidth_m := mmToM finTipWidth
  let finSweepLength_m := mmToM finSweepLength
  let finThickness_m := mmToM finThickness
  let rho : ℝ := 1.225
  let meanChord := (finBaseWidth_m + finTipWidth_m) / 2
  let sweepbackAngle := Real.arctan
    ((finSweepLength_m + 0.5 * finTipWidth_m - 0.5 * finBaseWidth_m) * 3.14 / meanChord)
  let J := 0.3333 * finTipWidth_m * finThickness_m ^ 3
  let liftCoefficient_fin := (9 / 3.14) * Real.cos sweepbackAngle
  let divSpeed := (3.14 / (2 * finHeight_m))
    * Real.sqrt (2 * G * J / (rho * meanChord ^ 2 * 0.25 * liftCoefficient_fin))
  max 20 (min 300 divSpeed)

/-- The condition under which the flutter-speed guard
`!isFinite(factorA) || !isFinite(factorB)` fires in IEEE arithmetic for
finite inputs: `factorA = 3.5 t / meanChord^1.5` is non-finite exactly
when the mean chord is zero (division by zero) or negative (fractional
power of a negative base is NaN), and `factorB = sqrt(G E / 10.92075)`
is NaN exactly when `G * E < 0`. -/
noncomputable def flutterFallbackCond (finBaseWidth finTipWidth G E : ℝ) : Prop :=
  (mmToM finBaseWidth + mmToM finTipWidth) / 2 ≤ 0 ∨ G * E < 0

noncomputable instance flutterFallbackCond_dec (finBaseWidth finTipWidth G E : ℝ) :
    Decidable (flutterFallbackCond finBaseWidth finTipWidth G E) := by
  unfold flutterFallbackCond
  infer_instance

/-- `calculateFinFlutterSpeed` (RocketPhysics.jsx lines 351-392).  When
the fallback guard fires the function returns
`40 + mmToM(bodyHeight + noseHeight) * 120` WITHOUT clamping; otherwise
the flutter speed is clamped to `[30, 400]`. -/
noncomputable def calculateFinFlutterSpeed (finHeight finBaseWidth finTipWidth
    finThickness bodyHeight noseHeight G E : ℝ) : ℝ :=
  let finBaseWidth_m := mmToM finBaseWidth
  let finTipWidth_m := mmToM finTipWidth
  let finThickness_m := mmToM finThickness
  let poissonsR : ℝ := 0.3
  let rho : ℝ := 1.225
  let meanChord := (finBaseWidth_m + finTipWidth_m) / 2
  let empiricalConstant : ℝ := 3.5
  let factorA := empiricalConstant * finThickness_m / meanChord ^ (1.5 : ℝ)
  let factorB := Real.sqrt (G * E / (12 * rho * (1 - poissonsR ^ 2)))
  if flutterFallbackCond finBaseWidth finTipWidth G E then
    40 + mmToM (bodyHeight + noseHeight) * 120
  else
    max 30 (min 400 (factorA * factorB))

/-- `calculateFinFlutterSpeed` of src/unnamed/part_001 (lines 440-516):
same fallback guard over the same `factorA`/`factorB`, but the clamped
value comes from the torsional formula `sqrt(...) * 343`. -/
noncomputable def calculateFinFlutterSpeed_p001 (bodyWidth finHeight finBaseWidth
    finTipWidth finThickness bodyHeight noseHeight G E : ℝ) : ℝ :=
  let finHeight_m := mmToM finHeight
  let finBaseWidth_m := mmToM finBaseWidth
  let finTipWidth_m := mmToM finTipWidth
  let finThickness_m := mmToM finThickness
  let bodyWidth_m := mmToM bodyWidth
  let specificHeatR : ℝ := 0.221
  let epsilon : ℝ := 0.25
  let lengthOfCo := ((finBaseWidth_m - finTipWidth_m) / finHeight_m)
    * ((bodyWidth_m / 2) + finHeight_m) + finTipWidth_m
  let cord_threequarter := lengthOfCo * 0.75
  let finSpan_half := finHeight_m + bodyWidth_m / 2
  let chord_half := lengthOfCo * 0.5
  let aspectR_FL := finSpan_half / chord_half
  let taperR := finTipWidth_m / lengthOfCo
  let atmosphericPressure_O : ℝ := 101325
  let atmosphericPressure_M : ℝ := 101325
  let polarMomentOfArea_fin := cord_threequarter * finThickness_m
    * (finThickness_m ^ 2 + cord_threequarter ^ 2) / 12
  let Ge := (6 * polarMomentOfArea_fin * G) / (cord_threequarter * finThickness_m ^ 3)
  if flutterFallbackCond finBaseWidth finTipWidth G E then
    40 + mmToM (bodyHeight + noseHeight) * 120
  else
    let flutterSpeed := Real.sqrt (3.14 * (finThickness_m / cord_threequarter) ^ 3 * Ge
      / (12 * epsilon * (aspectR_FL ^ 3 / (aspectR_FL + 2)) * (taperR + 1)
        * specificHeatR * atmosphericPressure_O
        * (atmosphericPressure_M / atmosphericPressure_O))) * 343
    max 30 (min 400 flutterSpeed)

/-- `calculateWindSpeedAtHeight` (RocketPhysics.jsx lines 417-440,
identical in part_001): power-law wind profile with the exponent `alpha`
taken from the missing `WIND_PROFILES` table, reference height 1.5 m,
multiplier capped at 3. -/
noncomputable def calculateWindSpeedAtHeight (baseWindSpeed height alpha : ℝ) : ℝ :=
  if height ≤ 0 then baseWindSpeed
  else if alpha = 0 then baseWindSpeed
  else
    let referenceHeight : ℝ := 1.5
    let heightR := height / referenceHeight
    let windSpeedMultiplier := heightR ^ alpha
    let actualMultiplier := min windSpeedMultiplier 3.0
    baseWindSpeed * actualMultiplier

/-- The `Number(finThickness) || 2.0` default of `calculateFinDeflection`:
a zero (falsy) thickness becomes 2 mm. -/
noncomputable def finDeflectionSafeThickness (finThickness : ℝ) : ℝ :=
  if finThickness = 0 then 2.0 else finThickness

/-- The clamped taper factor of `calculateFinDeflection` (denominator-zero
guard on `finHeight`, then clamped to `[-0.9, 0.9]`). -/
noncomputable def finDeflectionTaperR (finHeight finBaseWidth finTipWidth : ℝ) : ℝ :=
  if 0 < finHeight then
    max (-0.9) (min 0.9 (((finBaseWidth * 0.001) - (finTipWidth * 0.001))
      / (finHeight * 0.001)))
  else 0

/-- The floored second moment of area of `calculateFinDeflection`
(rectangular-section approximation, floored at `1e-12`). -/
noncomputable def finDeflectionI (finTipWidth safeFinThickness : ℝ) : ℝ :=
  let I0 :=
    if 0 < finTipWidth ∧ 0 < safeFinThickness then
      (finTipWidth * 0.001 * (safeFinThickness * 0.001) ^ 3) / 12
    else 0
  if I0 < 1e-12 then 1e-12 else I0

/-- `calculateFinDeflection` (RocketPhysics.jsx lines 603-674; this is
the variant the first `calculateFlightPath` uses).  The material lookup
supplies only the Young modulus `E`.  The `isNaN` check and the `catch`
branch (both returning the 15 mm sentinel) are unreachable in exact real
arithmetic and are dropped. -/
noncomputable def calculateFinDeflection (velocity E finHeight finBaseWidth
    finTipWidth finThickness finSweepLength angleChangePerDt2 : ℝ) : ℝ :=
  if |velocity| < 0.001 then 0
  else
    let safeFinThickness := finDeflectionSafeThickness finThickness
    let safeAngleChange := max (-0.5) (min 0.5 angleChangePerDt2)
    let safeVelocity := min velocity 300
    let finArea := ((finBaseWidth + finTipWidth) * 0.001) * (finHeight * 0.001) / 2
    let taperR := finDeflectionTaperR finHeight finBaseWidth finTipWidth
    let sweepAngle := Real.arctan ((finSweepLength * 0.001 + 0.5 * finTipWidth * 0.001
      - 0.5 * finBaseWidth * 0.001) * Real.pi / (finHeight * 0.001))
    let I := finDeflectionI finTipWidth safeFinThickness
    let windForce := (9.81 * 0.05 * safeVelocity * safeVelocity)
      * Real.sin safeAngleChange * finArea
    let unitlengthWindForce := windForce / max 0.001 (finHeight * 0.001)
    let deflectionFactor := 1 / (1 - taperR)
    let rawDeflection := (unitlengthWindForce * (finHeight * 0.001) ^ 4
      * Real.cos sweepAngle / (8 * E * I)) * deflectionFactor
    if 15 < |rawDeflection| then 15 else rawDeflection

lemma minMomentFloor_pos {m : ℝ} (h : 0 < m) : 0 < minMomentFloor m := by
  unfold minMomentFloor
  split_ifs with h1
  · rw [Real.sign_of_pos h]
    norm_num
  · exact h

lemma minMomentFloor_neg {m : ℝ} (h : m < 0) : minMomentFloor m < 0 := by
  unfold minMomentFloor
  split_ifs with h1
  · rw [Real.sign_of_neg h]
    norm_num
  · exact h

/-- C1 counterexample.  The claim asserts that EVERY moment function is
negative when `(application point ≥ CG and driving angle < 0)`; but
`calculateWindMoment` at pressure center 300 mm ≥ CG 250 mm with wind
speed −5 m/s (attitude 0, fin area 0.01 m², body ∅ 0.04 m, body 400 mm,
nose 100 mm) returns a strictly POSITIVE moment. -/
theorem windMoment_sign_counterexample :
    (250 : ℝ) ≤ 300 ∧ (-5 : ℝ) < 0 ∧
      0 < calculateWindMoment 100 0.04 400 (-5) 0 0.01 300 250 := by
  refine ⟨by norm_num, by norm_num, ?_⟩
  have hM : windMomentMagnitude 100 0.04 400 (-5) 0 0.01 300 250
      = 0.006134771875 := by
    unfold windMomentMagnitude
    rw [Real.cos_zero]
    rw [show max (-25 : ℝ) (min 25 (-5)) = -5 by norm_num]
    dsimp only
    rw [show ((-5 : ℝ) ^ 2) = 25 by norm_num]
    rw [abs_of_pos (by norm_num)]
    norm_num
  unfold calculateWindMoment
  dsimp only
  rw [if_pos (Or.inl ⟨by norm_num, by norm_num⟩), hM]
  exact minMomentFloor_pos (by norm_num)

/-- C1 (amended).  Sign convention actually implemented by the five
moment functions, given a nonzero computed magnitude: the LIFT and DRAG
moments are negative when `(application point ≥ CG and driving angle <
0) or (application point < CG and driving angle ≥ 0)` and positive
otherwise, while the WIND, THRUST and FIN moments obey the mirrored
rule — positive under that condition, negative otherwise.  The
application point / driving angle pairs are (aerodynamic center, angle
of attack) for lift and drag, (pressure center, wind speed) for wind,
(tail position, angle of attack) for thrust, and (fin pressure center
in meters, angle of attack) for the fin moment. -/
theorem momentFunctions_sign :
    (∀ v ω fa sA ac cg, 0 < liftMomentMagnitude v ω fa sA ac cg →
        (((cg ≤ ac ∧ ω - fa < 0) ∨ (ac < cg ∧ 0 ≤ ω - fa)) →
            calculateLiftMoment v ω fa sA ac cg < 0)
      ∧ (¬((cg ≤ ac ∧ ω - fa < 0) ∨ (ac < cg ∧ 0 ≤ ω - fa)) →
            0 < calculateLiftMoment v ω fa sA ac cg))
  ∧ (∀ v ω fa sA ac cg, 0 < dragMomentMagnitude v ω fa sA ac cg →
        (((cg ≤ ac ∧ ω - fa < 0) ∨ (ac < cg ∧ 0 ≤ ω - fa)) →
            calculateDragMoment v ω fa sA ac cg < 0)
      ∧ (¬((cg ≤ ac ∧ ω - fa < 0) ∨ (ac < cg ∧ 0 ≤ ω - fa)) →
            0 < calculateDragMoment v ω fa sA ac cg))
  ∧ (∀ nh bd bh w ω tfa cp cg, 0 < windMomentMagnitude nh bd bh w ω tfa cp cg →
        (((cg ≤ cp ∧ w < 0) ∨ (cp < cg ∧ 0 ≤ w)) →
            0 < calculateWindMoment nh bd bh w ω tfa cp cg)
      ∧ (¬((cg ≤ cp ∧ w < 0) ∨ (cp < cg ∧ 0 ≤ w)) →
            calculateWindMoment nh bd bh w ω tfa cp cg < 0))
  ∧ (∀ th cg ω fa nh bh, 0 < thrustMomentMagnitude th cg ω fa nh bh →
        (((cg ≤ nh + bh ∧ ω - fa < 0) ∨ (nh + bh < cg ∧ 0 ≤ ω - fa)) →
            0 < calculateThrustMoment th cg ω fa nh bh)
      ∧ (¬((cg ≤ nh + bh ∧ ω - fa < 0) ∨ (nh + bh < cg ∧ 0 ≤ ω - fa)) →
            calculateThrustMoment th cg ω fa nh bh < 0))
  ∧ (∀ fh fb n v ω fa fc cg, 0 < finMomentMagnitude fh fb n v ω fa fc cg →
        (((cg ≤ mmToM fc ∧ ω - fa < 0) ∨ (mmToM fc < cg ∧ 0 ≤ ω - fa)) →
            0 < calculateFinMoment fh fb n v ω fa fc cg)
      ∧ (¬((cg ≤ mmToM fc ∧ ω - fa < 0) ∨ (mmToM fc < cg ∧ 0 ≤ ω - fa)) →
            calculateFinMoment fh fb n v ω fa fc cg < 0)) := by
  refine ⟨?_, ?_, ?_, ?_, ?_⟩
  · intro v ω fa sA ac cg hM
    constructor
    · intro hc
      unfold calculateLiftMoment
      dsimp only
      rw [if_pos hc]
      split_ifs with h1 h2
      · rw [Real.sign_of_neg (neg_lt_zero.mpr hM)]
        norm_num
      · nlinarith [hM]
      · linarith
    · intro hc
      unfold calculateLiftMoment
      dsimp only
      rw [if_neg hc]
      split_ifs with h1 h2
      · rw [Real.sign_of_pos hM]
        norm_num
      · nlinarith [hM]
      · exact hM
  · intro v ω fa sA ac cg hM
    constructor
    · intro hc
      unfold calculateDragMoment
      dsimp only
      rw [if_pos hc]
      exact minMomentFloor_neg (neg_lt_zero.mpr hM)
    · intro hc
      unfold calculateDragMoment
      dsimp only
      rw [if_neg hc]
      exact minMomentFloor_pos hM
  · intro nh bd bh w ω tfa cp cg hM
    constructor
    · intro hc
      unfold calculateWindMoment
      dsimp only
      rw [if_pos hc]
      exact minMomentFloor_pos hM
    · intro hc
      unfold calculateWindMoment
      dsimp only
      rw [if_neg hc]
      exact minMomentFloor_neg (neg_lt_zero.mpr hM)
  · intro th cg ω fa nh bh hM
    constructor
    · intro hc
      unfold calculateThrustMoment
      dsimp only
      rw [if_pos hc]
      exact minMomentFloor_pos hM
    · intro hc
      unfold calculateThrustMoment
      dsimp only
      rw [if_neg hc]
      exact minMomentFloor_neg (neg_lt_zero.mpr hM)
  · intro fh fb n v ω fa fc cg hM
    constructor
    · intro hc
      unfold calculateFinMoment
      dsimp only
      rw [if_pos hc]
      exact minMomentFloor_pos hM
    · intro hc
      unfold calculateFinMoment
      dsimp only
      rw [if_neg hc]
      exact minMomentFloor_neg (neg_lt_zero.mpr hM)

/-- Witness for the amended C1 sign rule: the lift moment at velocity
10 m/s, attitude −0.1 rad, flight angle 0, side area 1 m², aerodynamic
center 300 mm and CG 250 mm (so the condition holds and the magnitude is
0.18375) is strictly negative. -/
theorem momentFunctions_sign_witness :
    calculateLiftMoment 10 (-0.1) 0 1 300 250 < 0 := by
  have hM : 0 < liftMomentMagnitude 10 (-0.1) 0 1 300 250 := by
    unfold liftMomentMagnitude
    dsimp only
    rw [show min ((10 : ℝ) * 10) 10000 = 100 by norm_num]
    rw [abs_of_neg (by norm_num)]
    norm_num
  exact (momentFunctions_sign.1 10 (-0.1) 0 1 300 250 hM).1
    (Or.inl ⟨by norm_num, by norm_num⟩)

/-- C2 counterexample.  With a degenerate (zero) chord — fin base and
tip width both 0, a finite geometry — the flutter-speed computation's
`factorA` is non-finite, the guard fires, and the UNCLAMPED fallback
`40 + mmToM(bodyHeight + noseHeight) * 120` is returned: for a 3500 mm
body with a 500 mm nose it equals 520 m/s, outside the claimed range
`[30, 400]`. -/
theorem finFlutterSpeed_range_counterexample :
    calculateFinFlutterSpeed 60 0 0 2 3500 500 (3 * 10 ^ 9) (4 * 10 ^ 9) = 520 ∧
      ¬ calculateFinFlutterSpeed 60 0 0 2 3500 500 (3 * 10 ^ 9) (4 * 10 ^ 9) ≤ 400 := by
  have h : calculateFinFlutterSpeed 60 0 0 2 3500 500 (3 * 10 ^ 9) (4 * 10 ^ 9) = 520 := by
    unfold calculateFinFlutterSpeed
    dsimp only
    have hg : flutterFallbackCond 0 0 (3 * 10 ^ 9) (4 * 10 ^ 9) := by
      unfold flutterFallbackCond
      norm_num [mmToM]
    rw [if_pos hg]
    norm_num [mmToM]
  exact ⟨h, by rw [h]; norm_num⟩

/-- C2 (amended).  The divergence speed is always clamped to
`[20, 300]`; each flutter-speed variant is clamped to `[30, 400]`
whenever its finiteness guard does not fire (positive mean chord and
`G * E ≥ 0`), and when the guard does fire both variants return the
unclamped fallback `40 + mmToM(bodyHeight + noseHeight) * 120`, which
grows without bound in the rocket's length. -/
theorem finSpeeds_clamped :
    (∀ fh fb ft fs fth G, 20 ≤ calculateFinDivergenceSpeed fh fb ft fs fth G
        ∧ calculateFinDivergenceSpeed fh fb ft fs fth G ≤ 300)
  ∧ (∀ fh fb ft fth bh nh G E, ¬ flutterFallbackCond fb ft G E →
        30 ≤ calculateFinFlutterSpeed fh fb ft fth bh nh G E
        ∧ calculateFinFlutterSpeed fh fb ft fth bh nh G E ≤ 400)
  ∧ (∀ bw fh fb ft fth bh nh G E, ¬ flutterFallbackCond fb ft G E →
        30 ≤ calculateFinFlutterSpeed_p001 bw fh fb ft fth bh nh G E
        ∧ calculateFinFlutterSpeed_p001 bw fh fb ft fth bh nh G E ≤ 400)
  ∧ (∀ fh fb ft fth bh nh G E, flutterFallbackCond fb ft G E →
        calculateFinFlutterSpeed fh fb ft fth bh nh G E
          = 40 + mmToM (bh + nh) * 120) := by
  refine ⟨?_, ?_, ?_, ?_⟩
  · intro fh fb ft fs fth G
    unfold calculateFinDivergenceSpeed
    dsimp only
    exact ⟨le_max_left _ _, max_le (by norm_num) (min_le_left _ _)⟩
  · intro fh fb ft fth bh nh G E h
    unfold calculateFinFlutterSpeed
    dsimp only
    rw [if_neg h]
    exact ⟨le_max_left _ _, max_le (by norm_num) (min_le_left _ _)⟩
  · intro bw fh fb ft fth bh nh G E h
    unfold calculateFinFlutterSpeed_p001
    dsimp only
    rw [if_neg h]
    exact ⟨le_max_left _ _, max_le (by norm_num) (min_le_left _ _)⟩
  · intro fh fb ft fth bh nh G E h
    unfold calculateFinFlutterSpeed
    dsimp only
    rw [if_pos h]

/-- Witness for amended C2: a fin with 80/40 mm chords (mean chord
0.06 m > 0) and positive moduli does not trigger the fallback, so the
flutter speed lies in `[30, 400]`. -/
theorem finSpeeds_clamped_witness :
    30 ≤ calculateFinFlutterSpeed 60 80 40 2 400 100 1 1
      ∧ calculateFinFlutterSpeed 60 80 40 2 400 100 1 1 ≤ 400 :=
  finSpeeds_clamped.2.1 60 80 40 2 400 100 1 1
    (by norm_num [flutterFallbackCond, mmToM])

/-- The example rocket of spec §8 (cone nose, 100/400/40 mm body,
60/80/40/20/2 mm fins), with no `finCp` key present before a run. -/
def paramsExample : RocketParamsDyn :=
  { geom := { noseShape := NoseShape.cone, noseHeight := 100, bodyHeight := 400
              bodyWidth := 40, finHeight := 60, finBaseWidth := 80
              finTipWidth := 40, finSweepLength := 20, finThickness := 2
              finCount := 4 }
    centerOfGravity := 250, weight := 200, finCp := none }

/-- C3 counterexample.  The second `calculateFlightPath` variant does
NOT leave its `rocketParams` argument unchanged: on the spec §8 example
it writes `finCp := 460` (the computed fin pressure center) onto the
argument, whose `finCp` slot was absent (`none`) before the call, so the
post-run object differs from the pre-run object. -/
theorem flightPath_v2_mutation_counterexample :
    (calculateFlightPath_v2_paramsUpdate paramsExample).finCp = some 460
  ∧ paramsExample.finCp = none
  ∧ ((calculateFlightPath_v2_paramsUpdate paramsExample = paramsExample) ↔ False) := by
  have h1 : (calculateFlightPath_v2_paramsUpdate paramsExample).finCp = some 460 := by
    unfold calculateFlightPath_v2_paramsUpdate rocketPhysics_finCp paramsExample
    norm_num
  refine ⟨h1, rfl, ⟨fun h => ?_, False.elim⟩⟩
  rw [h] at h1
  exact Option.noConfusion h1

/-- C3 (amended).  The second `calculateFlightPath` variant's only write
to its `rocketParams` argument is the `finCp` slot (set to the computed
fin center of pressure, RocketPhysics.jsx line 1437); the geometry, CG
and mass fields keep their values.  (The first variant performs no write
at all.) -/
theorem flightPath_v2_paramsUpdate_only_finCp :
    ∀ p : RocketParamsDyn,
      (calculateFlightPath_v2_paramsUpdate p).geom = p.geom
    ∧ (calculateFlightPath_v2_paramsUpdate p).centerOfGravity = p.centerOfGravity
    ∧ (calculateFlightPath_v2_paramsUpdate p).weight = p.weight
    ∧ (calculateFlightPath_v2_paramsUpdate p).finCp
        = some (rocketPhysics_finCp p.geom) :=
  fun _ => ⟨rfl, rfl, rfl, rfl⟩

lemma mmToM_nonneg {x : ℝ} (h : 0 ≤ x) : 0 ≤ mmToM x := by
  unfold mmToM
  positivity

/-- A 3-fin rocket with strictly positive geometry (1 mm fin height,
100 mm root chord, 300 mm tip chord, 50 mm body) on which the 3-fin
overlap-subtraction term exceeds the foreshortened trapezoid area. -/
def paramsThreeFin : RocketParams :=
  { noseShape := NoseShape.cone, noseHeight := 100, bodyHeight := 400
    bodyWidth := 50, finHeight := 1, finBaseWidth := 100, finTipWidth := 300
    finSweepLength := 0, finThickness := 1, finCount := 3 }

/-- C4 counterexample.  `calculateProjectedArea` does NOT return only
non-negative areas for every valid input: on `paramsThreeFin` (all
geometry fields strictly positive numbers, fin count 3) the per-fin
projected area and the total fin area are strictly negative
(−0.000822625 m² and −0.00164525 m²). -/
theorem projectedArea_nonneg_counterexample :
    (calculateProjectedAreaCore paramsThreeFin).finArea = -0.000822625
  ∧ (calculateProjectedAreaCore paramsThreeFin).finArea < 0
  ∧ (calculateProjectedAreaCore paramsThreeFin).totalFinArea < 0 := by
  have h : (calculateProjectedAreaCore paramsThreeFin).finArea = -0.000822625 := by
    unfold calculateProjectedAreaCore paramsThreeFin
    norm_num [mmToM]
  have h2 : (calculateProjectedAreaCore paramsThreeFin).totalFinArea
      = (calculateProjectedAreaCore paramsThreeFin).finArea * 2 := by
    unfold calculateProjectedAreaCore
    norm_num
  refine ⟨h, by rw [h]; norm_num, by rw [h2, h]; norm_num⟩

/-- All eight geometry lengths of the parameter record are non-negative. -/
def NonnegGeom (p : RocketParams) : Prop :=
  0 ≤ p.noseHeight ∧ 0 ≤ p.bodyHeight ∧ 0 ≤ p.bodyWidth ∧ 0 ≤ p.finHeight
  ∧ 0 ≤ p.finBaseWidth ∧ 0 ≤ p.finTipWidth ∧ 0 ≤ p.finSweepLength
  ∧ 0 ≤ p.finThickness

/-- C4 (amended).  For non-negative geometry: the frontal, nose and
angled projected areas are always non-negative, and in the 4-fin
configuration the fin, total-fin and side areas are non-negative as
well (the 3-fin overlap correction can drive the fin areas negative,
see the counterexample); all three volumes are non-negative. -/
theorem areas_volumes_nonneg :
    (∀ p : RocketParams, NonnegGeom p →
        0 ≤ (calculateProjectedAreaCore p).frontalArea
      ∧ 0 ≤ (calculateProjectedAreaCore p).noseArea
      ∧ 0 ≤ (calculateProjectedAreaCore p).angledArea)
  ∧ (∀ p : RocketParams, NonnegGeom p → p.finCount = 4 →
        0 ≤ (calculateProjectedAreaCore p).finArea
      ∧ 0 ≤ (calculateProjectedAreaCore p).totalFinArea
      ∧ 0 ≤ (calculateProjectedAreaCore p).sideArea)
  ∧ (∀ p : RocketParams, NonnegGeom p →
        0 ≤ (calculateVolume p).bodyVolume
      ∧ 0 ≤ (calculateVolume p).noseVolume
      ∧ 0 ≤ (calculateVolume p).totalVolume) := by
  have noseArea_nonneg : ∀ p : RocketParams, NonnegGeom p →
      0 ≤ (calculateProjectedAreaCore p).noseArea := by
    intro p hp
    obtain ⟨hnh, hbh, hbw, hfh, hfb, hft, hfs, hfth⟩ := hp
    unfold calculateProjectedAreaCore
    dsimp only
    cases p.noseShape <;>
      exact mul_nonneg (mul_nonneg (by norm_num) (mmToM_nonneg hbw)) (mmToM_nonneg hnh)
  refine ⟨?_, ?_, ?_⟩
  · intro p hp
    obtain ⟨hnh, hbh, hbw, hfh, hfb, hft, hfs, hfth⟩ := hp
    refine ⟨?_, noseArea_nonneg p ⟨hnh, hbh, hbw, hfh, hfb, hft, hfs, hfth⟩, ?_⟩
    · unfold calculateProjectedAreaCore
      dsimp only
      have h1 : 0 ≤ Real.pi * (mmToM p.bodyWidth / 2) ^ 2 :=
        mul_nonneg Real.pi_pos.le (sq_nonneg _)
      have h2 : (0 : ℝ) ≤ p.finHeight * p.finThickness * 4 * 0.0000001 :=
        mul_nonneg (mul_nonneg (mul_nonneg hfh hfth) (by norm_num)) (by norm_num)
      linarith
    · unfold calculateProjectedAreaCore
      dsimp only
      exact Real.sqrt_nonneg _
  · intro p hp hfc
    obtain ⟨hnh, hbh, hbw, hfh, hfb, hft, hfs, hfth⟩ := hp
    have hfin : 0 ≤ (calculateProjectedAreaCore p).finArea := by
      unfold calculateProjectedAreaCore
      dsimp only
      rw [hfc]
      rw [if_neg (by norm_num)]
      have := mmToM_nonneg hfh
      have := mmToM_nonneg hfb
      have := mmToM_nonneg hft
      positivity
    have htot : 0 ≤ (calculateProjectedAreaCore p).totalFinArea := by
      have h2 : (calculateProjectedAreaCore p).totalFinArea
          = (calculateProjectedAreaCore p).finArea * 2 := by
        unfold calculateProjectedAreaCore
        norm_num
      rw [h2]
      linarith
    refine ⟨hfin, htot, ?_⟩
    have hside : (calculateProjectedAreaCore p).sideArea
        = mmToM p.bodyWidth * mmToM p.bodyHeight
          + (calculateProjectedAreaCore p).noseArea
          + (calculateProjectedAreaCore p).totalFinArea := by
      unfold calculateProjectedAreaCore
      norm_num
    rw [hside]
    have hbody : 0 ≤ mmToM p.bodyWidth * mmToM p.bodyHeight :=
      mul_nonneg (mmToM_nonneg hbw) (mmToM_nonneg hbh)
    have hnose := noseArea_nonneg p ⟨hnh, hbh, hbw, hfh, hfb, hft, hfs, hfth⟩
    linarith
  · intro p hp
    obtain ⟨hnh, hbh, hbw, hfh, hfb, hft, hfs, hfth⟩ := hp
    have hb : 0 ≤ Real.pi * (mmToM p.bodyWidth / 2) ^ 2 * mmToM p.bodyHeight :=
      mul_nonneg (mul_nonneg Real.pi_pos.le (sq_nonneg _)) (mmToM_nonneg hbh)
    have hn : 0 ≤ (calculateVolume p).noseVolume := by
      unfold calculateVolume
      dsimp only
      cases p.noseShape <;>
        exact mul_nonneg (mul_nonneg (mul_nonneg (by norm_num) Real.pi_pos.le)
          (sq_nonneg _)) (mmToM_nonneg hnh)
    refine ⟨?_, hn, ?_⟩
    · unfold calculateVolume
      dsimp only
      exact hb
    · have ht : (calculateVolume p).totalVolume
          = (calculateVolume p).bodyVolume + (calculateVolume p).noseVolume := by
        unfold calculateVolume
        norm_num
      have hbv : (calculateVolume p).bodyVolume
          = Real.pi * (mmToM p.bodyWidth / 2) ^ 2 * mmToM p.bodyHeight := by
        unfold calculateVolume
        norm_num
      rw [ht, hbv]
      linarith

/-- Witness for amended C4 on the spec §8 example (4 fins, all lengths
non-negative): fin area and total volume come out non-negative. -/
theorem areas_volumes_nonneg_witness :
    0 ≤ (calculateProjectedAreaCore paramsExample.geom).finArea
  ∧ 0 ≤ (calculateVolume paramsExample.geom).totalVolume := by
  have hn : NonnegGeom paramsExample.geom := by
    unfold NonnegGeom paramsExample
    norm_num
  exact ⟨(areas_volumes_nonneg.2.1 paramsExample.geom hn rfl).1,
    (areas_volumes_nonneg.2.2 paramsExample.geom hn).2.2⟩

lemma validateRocketParams_none {r : RawRocketParams}
    (h : r.noseHeight = none ∨ r.bodyHeight = none ∨ r.bodyWidth = none ∨
      r.finHeight = none ∨ r.finBaseWidth = none ∨ r.finTipWidth = none ∨
      r.finSweepLength = none ∨ r.finThickness = none) :
    validateRocketParams r = none := by
  unfold validateRocketParams
  split
  · simp_all
  · rfl

/-- C8.  `calculateProjectedArea` is a defensive boundary, never an
exception: a missing `rocketParams` object, or any of the eight required
geometry fields missing or non-numeric, yields exactly the zeroed
profile `{frontalArea; sideArea; finArea; totalFinArea; angledArea} = 0`
(the Lean model also zeroes the `noseArea` key, which the source's zero
literal simply omits). -/
theorem projectedArea_invalid_zeroed :
    calculateProjectedArea none = zeroAreaProfile
  ∧ (∀ r : RawRocketParams,
      (r.noseHeight = none ∨ r.bodyHeight = none ∨ r.bodyWidth = none ∨
       r.finHeight = none ∨ r.finBaseWidth = none ∨ r.finTipWidth = none ∨
       r.finSweepLength = none ∨ r.finThickness = none) →
      calculateProjectedArea (some r) = zeroAreaProfile) := by
  refine ⟨rfl, ?_⟩
  intro r h
  unfold calculateProjectedArea
  dsimp only
  rw [validateRocketParams_none h]

/-- A parameter object whose `bodyWidth` is missing / non-numeric. -/
def rawParamsMissing : RawRocketParams :=
  { noseShape := NoseShape.cone, noseHeight := some 100, bodyHeight := some 400
    bodyWidth := none, finHeight := some 60, finBaseWidth := some 80
    finTipWidth := some 40, finSweepLength := some 20, finThickness := some 2
    finCount := 4 }

/-- Witness for C8: both a missing object and a missing `bodyWidth`
field produce the zeroed profile. -/
theorem projectedArea_invalid_zeroed_witness :
    calculateProjectedArea (some rawParamsMissing) = zeroAreaProfile
  ∧ calculateProjectedArea none = zeroAreaProfile :=
  ⟨projectedArea_invalid_zeroed.2 rawParamsMissing
      (Or.inr (Or.inr (Or.inl rfl))),
    projectedArea_invalid_zeroed.1⟩

lemma finDeflectionI_pos (t s : ℝ) : 0 < finDeflectionI t s := by
  unfold finDeflectionI
  dsimp only
  split_ifs with h1 h2 h3
  · norm_num
  · push_neg at h2
    linarith
  · norm_num
  · exact absurd (by norm_num : (0 : ℝ) < 1e-12) h3

lemma finDeflectionTaperR_le (h b t : ℝ) : finDeflectionTaperR h b t ≤ 0.9 := by
  unfold finDeflectionTaperR
  split_ifs with h1
  · exact max_le (by norm_num) ((min_le_left _ _).trans (by norm_num))
  · norm_num

lemma clamp15_mono {a b : ℝ} (ha : 0 ≤ a) (hab : a ≤ b) :
    (if 15 < |a| then (15 : ℝ) else a) ≤ (if 15 < |b| then 15 else b) := by
  rw [abs_of_nonneg ha, abs_of_nonneg (ha.trans hab)]
  split_ifs with h1 h2 h2 <;> linarith

lemma sin_half_pos : 0 < Real.sin 0.5 :=
  Real.sin_pos_of_pos_of_lt_pi (by norm_num) (by linarith [Real.pi_gt_three])

/-- Closed form of `calculateFinDeflection` on the 60/80/40/2/20 mm fin
with Young modulus `2·10⁹` and angle change −0.5 (the sweep-angle
argument vanishes for this geometry, so `cos(sweep) = 1`): the deflection
equals `-(sin 0.5) * v² * 2145447/800000000000` for any velocity in the
[0.001, 300] working band — strictly decreasing in `v`. -/
lemma finDeflection_cex_eval (v : ℝ) (hv : 0.001 ≤ v) (hv300 : v ≤ 300) :
    calculateFinDeflection v (2 * 10 ^ 9) 60 80 40 2 20 (-0.5)
      = -(Real.sin 0.5 * (v * v) * (2145447 / 800000000000)) := by
  have hv0 : ¬(|v| < 0.001) := by
    rw [abs_of_pos (by linarith)]
    linarith
  have hIval : finDeflectionI 40 (finDeflectionSafeThickness 2) = 1 / 37500000000 := by
    unfold finDeflectionI finDeflectionSafeThickness
    norm_num
  have htpr : finDeflectionTaperR 60 80 40 = 2 / 3 := by
    unfold finDeflectionTaperR
    rw [if_pos (by norm_num)]
    rw [show ((80 : ℝ) * 0.001 - 40 * 0.001) / (60 * 0.001) = 2 / 3 by norm_num]
    rw [min_eq_right (by norm_num), max_eq_right (by norm_num)]
  have harg : ((20 : ℝ) * 0.001 + 0.5 * 40 * 0.001 - 0.5 * 80 * 0.001) * Real.pi
      / (60 * 0.001) = 0 := by
    rw [show ((20 : ℝ) * 0.001 + 0.5 * 40 * 0.001 - 0.5 * 80 * 0.001) = 0 by norm_num,
      zero_mul, zero_div]
  have hs1 := sin_half_pos
  have hs2 := Real.sin_le_one 0.5
  unfold calculateFinDeflection
  rw [if_neg hv0]
  dsimp only
  rw [hIval, htpr, harg, Real.arctan_zero, Real.cos_zero]
  rw [show max (-0.5 : ℝ) (min 0.5 (-0.5)) = -0.5 by norm_num]
  rw [Real.sin_neg]
  rw [min_eq_left hv300]
  rw [show max (0.001 : ℝ) (60 * 0.001) = 60 * 0.001 by norm_num]
  rw [show (9.81 * 0.05 * v * v * -Real.sin 0.5 * ((80 + 40) * 0.001 * (60 * 0.001) / 2)
        / (60 * 0.001) * (60 * 0.001) ^ 4 * 1
        / (8 * (2 * 10 ^ 9) * (1 / 37500000000)) * (1 / (1 - 2 / 3)))
      = -(Real.sin 0.5 * (v * v) * (2145447 / 800000000000)) from by ring]
  have hRnp : -(Real.sin 0.5 * (v * v) * (2145447 / 800000000000 : ℝ)) ≤ 0 := by
    have h0 : 0 ≤ Real.sin 0.5 * (v * v) * (2145447 / 800000000000 : ℝ) :=
      mul_nonneg (mul_nonneg hs1.le (mul_self_nonneg v)) (by norm_num)
    linarith
  have hno : ¬ (15 < |(-(Real.sin 0.5 * (v * v) * (2145447 / 800000000000 : ℝ)))|) := by
    rw [abs_of_nonpos hRnp, neg_neg]
    intro hlt
    nlinarith [mul_nonneg (sub_nonneg.mpr hs2) (mul_self_nonneg v),
      mul_nonneg (sub_nonneg.mpr hv300) (show (0 : ℝ) ≤ 300 + v by linarith), hs1.le]
  rw [if_neg hno]

/-- C9 counterexample.  Fin deflection is NOT monotonically
non-decreasing in velocity: on the 60/80/40/2/20 mm fin (E = 2·10⁹ Pa)
with angle change −0.5, doubling the velocity from 10 to 20 m/s makes
the (negative) deflection strictly smaller. -/
theorem finDeflection_monotone_counterexample :
    calculateFinDeflection 20 (2 * 10 ^ 9) 60 80 40 2 20 (-0.5)
      < calculateFinDeflection 10 (2 * 10 ^ 9) 60 80 40 2 20 (-0.5) := by
  rw [finDeflection_cex_eval 10 (by norm_num) (by norm_num),
    finDeflection_cex_eval 20 (by norm_num) (by norm_num)]
  nlinarith [sin_half_pos]

/-- C9 (amended).  `calculateFinDeflection` returns 0 below the 0.001
velocity epsilon; its magnitude never exceeds the 15 mm ceiling; and it
is monotonically non-decreasing in velocity PROVIDED the recent
angle-change driving the load is non-negative, the Young modulus is
positive and the fin lengths are non-negative (for a negative angle
change the deflection is negative and decreasing, see the
counterexample; the NaN/exception sentinel paths of the source are
unreachable in exact real arithmetic). -/
theorem finDeflection_amended :
    (∀ v E fh fb ft fth fs aC, |v| < 0.001 →
        calculateFinDeflection v E fh fb ft fth fs aC = 0)
  ∧ (∀ v E fh fb ft fth fs aC,
        |calculateFinDeflection v E fh fb ft fth fs aC| ≤ 15)
  ∧ (∀ E fh fb ft fth fs aC v1 v2, 0.001 ≤ v1 → v1 ≤ v2 → 0 ≤ aC → 0 < E →
        0 ≤ fh → 0 ≤ fb → 0 ≤ ft →
        calculateFinDeflection v1 E fh fb ft fth fs aC
          ≤ calculateFinDeflection v2 E fh fb ft fth fs aC) := by
  refine ⟨?_, ?_, ?_⟩
  · intro v E fh fb ft fth fs aC h
    unfold calculateFinDeflection
    rw [if_pos h]
  · intro v E fh fb ft fth fs aC
    unfold calculateFinDeflection
    dsimp only
    split_ifs with h1 h2
    · norm_num
    · norm_num
    · push_neg at h2
      exact h2
  · intro E fh fb ft fth fs aC v1 v2 hv1 hv12 haC hE hfh hfb hft
    have hvpos1 : ¬(|v1| < 0.001) := by
      rw [abs_of_pos (by linarith)]
      linarith
    have hvpos2 : ¬(|v2| < 0.001) := by
      rw [abs_of_pos (by linarith)]
      linarith
    unfold calculateFinDeflection
    rw [if_neg hvpos1, if_neg hvpos2]
    dsimp only
    have hsa0 : 0 ≤ max (-0.5) (min 0.5 aC) :=
      le_max_of_le_right (le_min (by norm_num) haC)
    have hsa1 : max (-0.5) (min 0.5 aC) ≤ 0.5 :=
      max_le (by norm_num) (min_le_left _ _)
    have hsin : 0 ≤ Real.sin (max (-0.5) (min 0.5 aC)) :=
      Real.sin_nonneg_of_nonneg_of_le_pi hsa0 (by linarith [Real.pi_gt_three])
    have hcos : 0 ≤ Real.cos (Real.arctan ((fs * 0.001 + 0.5 * ft * 0.001
        - 0.5 * fb * 0.001) * Real.pi / (fh * 0.001))) := by
      rw [Real.cos_arctan]
      positivity
    have hfa : 0 ≤ (fb + ft) * 0.001 * (fh * 0.001) / 2 := by positivity
    have hD : (0 : ℝ) < max 0.001 (fh * 0.001) :=
      lt_of_lt_of_le (by norm_num) (le_max_left _ _)
    have hI := finDeflectionI_pos ft (finDeflectionSafeThickness fth)
    have hEI : (0 : ℝ) < 8 * E * finDeflectionI ft (finDeflectionSafeThickness fth) :=
      mul_pos (mul_pos (by norm_num) hE) hI
    have htp := finDeflectionTaperR_le fh fb ft
    have hdf : (0 : ℝ) < 1 / (1 - finDeflectionTaperR fh fb ft) := by
      have : (0 : ℝ) < 1 - finDeflectionTaperR fh fb ft := by linarith
      positivity
    have hsv1 : (0 : ℝ) ≤ min v1 300 := le_min (by linarith) (by norm_num)
    have hsv12 : min v1 300 ≤ min v2 300 := min_le_min hv12 le_rfl
    have hsv2 : (0 : ℝ) ≤ min v2 300 := hsv1.trans hsv12
    apply clamp15_mono
    · have hWF : 0 ≤ 9.81 * 0.05 * min v1 300 * min v1 300
          * Real.sin (max (-0.5) (min 0.5 aC))
          * ((fb + ft) * 0.001 * (fh * 0.001) / 2) :=
        mul_nonneg (mul_nonneg (mul_nonneg (mul_nonneg (by norm_num) hsv1) hsv1)
          hsin) hfa
      have h4 : (0 : ℝ) ≤ (fh * 0.001) ^ 4 := by positivity
      exact mul_nonneg (div_nonneg (mul_nonneg (mul_nonneg
        (div_nonneg hWF hD.le) h4) hcos) hEI.le) hdf.le
    · gcongr 9.81 * 0.05 * ?_ * ?_ * Real.sin (max (-0.5) (min 0.5 aC))
        * ((fb + ft) * 0.001 * (fh * 0.001) / 2) / max 0.001 (fh * 0.001)
        * (fh * 0.001) ^ 4 * Real.cos (Real.arctan ((fs * 0.001 + 0.5 * ft * 0.001
          - 0.5 * fb * 0.001) * Real.pi / (fh * 0.001)))
        / (8 * E * finDeflectionI ft (finDeflectionSafeThickness fth))
        * (1 / (1 - finDeflectionTaperR fh fb ft))

/-- Witness for amended C9: with zero angle change on the spec §8 fin
the deflection is non-decreasing from 10 to 20 m/s, and a creeping
0.0005 m/s velocity yields exactly zero deflection. -/
theorem finDeflection_amended_witness :
    calculateFinDeflection 10 (2 * 10 ^ 9) 60 80 40 2 20 0
      ≤ calculateFinDeflection 20 (2 * 10 ^ 9) 60 80 40 2 20 0
  ∧ calculateFinDeflection 0.0005 (2 * 10 ^ 9) 60 80 40 2 20 0 = 0 :=
  ⟨finDeflection_amended.2.2 (2 * 10 ^ 9) 60 80 40 2 20 0 10 20 (by norm_num)
      (by norm_num) le_rfl (by norm_num) (by norm_num) (by norm_num) (by norm_num),
    finDeflection_amended.1 0.0005 (2 * 10 ^ 9) 60 80 40 2 20 0
      (by rw [abs_of_pos] <;> norm_num)⟩

/-- JavaScript `Math.atan2(y, x)` (used for the flight angle
`Math.atan2(prev_vx, prev_vy)`); signed-zero distinctions of IEEE floats
collapse onto the `x = 0` branches. -/
noncomputable def jsAtan2 (y x : ℝ) : ℝ :=
  if 0 < x then Real.arctan (y / x)
  else if x < 0 then
    (if 0 ≤ y then Real.arctan (y / x) + Real.pi else Real.arctan (y / x) - Real.pi)
  else if 0 < y then Real.pi / 2
  else if y < 0 then -(Real.pi / 2)
  else 0

/-- One `keyPoints` record of `calculateFlightPath` ({time, height, speed}). -/
structure KeyPoint where
  time : ℝ
  height : ℝ
  speed : ℝ

def zeroKeyPoint : KeyPoint := { time := 0, height := 0, speed := 0 }

/-- One record of the append-only `data` array of the first
`calculateFlightPath` variant (RocketPhysics.jsx lines 1323-1346). -/
structure FlightSample where
  time : ℝ
  physicsX : ℝ
  physicsY : ℝ
  height : ℝ
  vx : ℝ
  vy : ℝ
  ax : ℝ
  ay : ℝ
  speedMagnitude : ℝ
  accelerationMagnitude : ℝ
  angularVelocity : ℝ
  angularAcceleration : ℝ
  isParachuteEjected : Bool
  isParachuteActive : Bool
  parachuteDeploymentProgress : ℝ
  omega : ℝ
  torque : ℝ
  angleChangePerDt2 : ℝ
  horizontalDistance : ℝ
  finDeflection : ℝ
  angleDeviationDegrees : ℝ
  effectiveWindSpeed : ℝ

/-- Inputs of one `calculateFlightPath` run (first variant,
RocketPhysics.jsx lines 677-1392).  Besides the rocket parameters, the
launch angle and the wind inputs, it bundles every value the function
reads from the missing `RocketConstants` module (modelled as free
parameters: thrust table, material modulus, nose drag coefficient,
wind-profile exponent, rail length, attitude-response interval and step
count) and the four aerodynamic quantities the function precomputes once
up front from the geometry helpers (`sideArea`, `totalFinArea`, the
aerodynamic center and the overall pressure center) — the theorems below
hold for every value of these, hence in particular for the precomputed
ones. -/
structure SimParams where
  noseHeight : ℝ
  bodyHeight : ℝ
  bodyWidth : ℝ
  finHeight : ℝ
  finBaseWidth : ℝ
  finTipWidth : ℝ
  finSweepLength : ℝ
  finThickness : ℝ
  centerOfGravity : ℝ
  weight : ℝ
  angle : ℝ
  windSpeed : ℝ
  windAlpha : ℝ
  noseCd : ℝ
  matE : ℝ
  thrustData : List ℝ
  parachuteDelay : ℝ
  parachuteDiameter : ℝ
  launchRailLength : ℝ
  dt2 : ℝ
  stepsPerUpdate : ℕ
  sideArea : ℝ
  totalFinArea : ℝ
  aerodynamicCenterVal : ℝ
  centerOfPressureVal : ℝ

noncomputable def SimParams.mass_kg (P : SimParams) : ℝ := gToKg P.weight

noncomputable def SimParams.bodyDiameter (P : SimParams) : ℝ := mmToM P.bodyWidth

noncomputable def SimParams.bodyLength (P : SimParams) : ℝ :=
  mmToM (P.bodyHeight + P.noseHeight)

/-- Moment of inertia of the first variant
(`0.25 m r² + 0.833 m l²`, line 697 — the second variant uses 0.0833). -/
noncomputable def SimParams.momentOfInertia (P : SimParams) : ℝ :=
  0.25 * P.mass_kg * (P.bodyDiameter / 2) * (P.bodyDiameter / 2)
    + 0.833 * P.mass_kg * P.bodyLength * P.bodyLength

noncomputable def SimParams.thrustEndTime (P : SimParams) : ℝ :=
  (P.thrustData.length : ℝ) * 0.02

noncomputable def SimParams.parachuteEjectionTime (P : SimParams) : ℝ :=
  P.thrustEndTime + P.parachuteDelay

/-- `parachuteEjectionTime + parachuteDeployTime` with the hard-coded
1.0 s deployment duration. -/
noncomputable def SimParams.parachuteActiveTime (P : SimParams) : ℝ :=
  P.parachuteEjectionTime + 1.0

/-- The mutable loop state of the first `calculateFlightPath` variant.
`prev_vx`/`prev_vy` are overwritten from `vx`/`vy` at the top of every
iteration before any read, so they live as locals of `simStep` rather
than as state fields.  The `keyPoints` record is carried in four fields. -/
structure SimState where
  time : ℝ
  x : ℝ
  y : ℝ
  vx : ℝ
  vy : ℝ
  omega : ℝ
  angularVelocity : ℝ
  angularAcceleration : ℝ
  isParachuteEjected : Bool
  isParachuteActive : Bool
  parachuteDeploymentProgress : ℝ
  finDeflection : ℝ
  maxAngleChangePerDt2 : ℝ
  isAngleStableOK : Bool
  thrustEndFlag : Bool
  stepCounter : ℕ
  totalTorque : ℝ
  avgThrustForTorque : ℝ
  thrustSamplesCount : ℕ
  angleChangePerDt2 : ℝ
  maxHeight : ℝ
  maxSpeed : ℝ
  maxDistance : ℝ
  maxFinDeflection : ℝ
  kpThrustEnd : KeyPoint
  kpMaxHeight : KeyPoint
  kpParachuteEjection : KeyPoint
  kpParachuteActive : KeyPoint
  data : List FlightSample

/-- The parachute state machine at the top of every loop iteration
(RocketPhysics.jsx lines 779-798): set the ejection flag once `time ≥
parachuteEjectionTime`; while ejected-but-not-active track the
deployment progress `min(1, (time - ejectionTime)/1.0)`; once `time ≥
parachuteActiveTime` activate, force progress to 1 and multiply BOTH
velocity components by 0.1. -/
noncomputable def parachuteUpdate (P : SimParams) (s : SimState) : SimState :=
  let s1 :=
    if s.isParachuteEjected = false ∧ P.parachuteEjectionTime ≤ s.time then
      { s with isParachuteEjected := true
               kpParachuteEjection := { time := s.time, height := s.y, speed := s.vy } }
    else s
  let s2 :=
    if s1.isParachuteEjected = true ∧ s1.isParachuteActive = false then
      { s1 with parachuteDeploymentProgress := min 1 ((s1.time - P.parachuteEjectionTime) / 1.0) }
    else s1
  if s2.isParachuteActive = false ∧ P.parachuteActiveTime ≤ s2.time then
    { s2 with isParachuteActive := true
              parachuteDeploymentProgress := 1.0
              vx := s2.vx * 0.1
              vy := s2.vy * 0.1
              kpParachuteActive := { time := s2.time, height := s2.y, speed := s2.vy * 0.1 } }
  else s2

/-- What one pass through the phase-dependent force/torque block yields:
accelerations, the torque contribution, and the state bits that block
may write (thrust-end flag and key point, thrust accumulators). -/
structure PhaseOut where
  ax : ℝ
  ay : ℝ
  torque : ℝ
  thrustEndFlag : Bool
  kpThrustEnd : KeyPoint
  avgThrustForTorque : ℝ
  thrustSamplesCount : ℕ

/-- The common minimum-threshold-then-clamp post-processing of the raw
torque (`MIN_TORQUE_THRESHOLD = 0.0001`, clamp to `[-1, 1]`). -/
noncomputable def torqueFloorClamp (rawTorque : ℝ) : ℝ :=
  if 0 < |rawTorque| ∧ |rawTorque| < 0.0001 then Real.sign rawTorque * 0.0001
  else max (-1.0) (min 1.0 rawTorque)

/-- The phase-dependent force/torque block of the first
`calculateFlightPath` variant (RocketPhysics.jsx lines 841-1063):
full-parachute drag, deploying-phase light drag, or normal flight with
thrust/inertial sub-phases, launch-rail constraint, moment composition,
torque floor/clamp and the ±4°/±18° amplification.  The `isFinite`/
`isNaN` screens and the `try`/`catch` recovery (torque 0) around the
moment calls are unreachable in exact real arithmetic and collapse to
the computed branch. -/
noncomputable def phaseForces (P : SimParams) (s1 : SimState)
    (prevVx prevVy velocity effectiveWindSpeed adjustedOmega : ℝ)
    (onLaunchRail : Bool) : PhaseOut :=
  let g : ℝ := 9.81
  if s1.isParachuteActive = true then
    let Cd : ℝ := 0.775
    let rho : ℝ := 1.225
    let Area := Real.pi * (P.parachuteDiameter / 2) ^ 2
    let Dp := 0.5 * Cd * rho * velocity * velocity * Area
    let Fx0 := if 0.001 < velocity then -Dp * (prevVx / velocity) else 0
    let Fy0 := if 0.001 < velocity then -Dp * (prevVy / velocity) else 0
    let Cdw : ℝ := 0.25
    let S := P.parachuteDiameter * P.parachuteDiameter * 0.785
    let Dw := 0.5 * Cdw * rho * |effectiveWindSpeed| * effectiveWindSpeed * S
    let Fx := Fx0 - Dw
    let Fy := Fy0 - P.mass_kg * g
    let initialOmega := P.angle * Real.pi / 180
    let torque :=
      if 0.01 < |adjustedOmega - initialOmega| then
        (initialOmega - adjustedOmega) * 0.001
      else 0
    { ax := Fx / P.mass_kg, ay := Fy / P.mass_kg, torque := torque
      thrustEndFlag := s1.thrustEndFlag, kpThrustEnd := s1.kpThrustEnd
      avgThrustForTorque := s1.avgThrustForTorque
      thrustSamplesCount := s1.thrustSamplesCount }
  else if s1.isParachuteEjected = true then
    let rho : ℝ := 1.225
    let dragCoefficient : ℝ := 0.1
    let Fy0 := -(P.mass_kg * g)
    let FxFy :=
      if 0.001 < velocity then
        (-(dragCoefficient * prevVx), Fy0 - dragCoefficient * prevVy)
      else ((0 : ℝ), Fy0)
    let Cdw : ℝ := 0.25
    let S := P.bodyDiameter * P.bodyLength * 0.5
    let Dw := 0.5 * Cdw * rho * |effectiveWindSpeed| * effectiveWindSpeed * S
    let Fx := FxFy.1 - Dw * 0.5
    let initialOmega := P.angle * Real.pi / 180
    let torque := (initialOmega - adjustedOmega) * 0.0005
    { ax := Fx / P.mass_kg, ay := FxFy.2 / P.mass_kg, torque := torque
      thrustEndFlag := s1.thrustEndFlag, kpThrustEnd := s1.kpThrustEnd
      avgThrustForTorque := s1.avgThrustForTorque
      thrustSamplesCount := s1.thrustSamplesCount }
  else
    let Cd := P.noseCd
    let rho : ℝ := 1.225
    let Area := Real.pi * (P.bodyDiameter / 2) ^ 2
      + mmToM P.finHeight * mmToM P.finThickness * 4
    let Dt := 0.5 * Cd * rho * velocity * velocity * Area
    let Cdw : ℝ := 0.25
    let S := P.bodyDiameter * P.bodyLength
    let Dw := 0.5 * Cdw * rho * |effectiveWindSpeed| * effectiveWindSpeed * S
    if s1.time < P.thrustEndTime then
      let thrustIndex := min (⌊s1.time / 0.02⌋.toNat) (P.thrustData.length - 1)
      let thrust := P.thrustData.getD thrustIndex 0
      let avg1 := s1.avgThrustForTorque + thrust
      let cnt1 := s1.thrustSamplesCount + 1
      if onLaunchRail then
        let FxFy :=
          if P.angle = 0 then (-Dw, thrust - P.mass_kg * g)
          else (thrust * Real.sin adjustedOmega - Dw,
            thrust * Real.cos adjustedOmega - P.mass_kg * g)
        { ax := FxFy.1 / P.mass_kg, ay := FxFy.2 / P.mass_kg, torque := 0
          thrustEndFlag := s1.thrustEndFlag, kpThrustEnd := s1.kpThrustEnd
          avgThrustForTorque := avg1, thrustSamplesCount := cnt1 }
      else
        let FxFy :=
          if 0.001 < velocity then
            (thrust * Real.sin adjustedOmega - Dt * Real.sin adjustedOmega - Dw,
              thrust * Real.cos adjustedOmega - P.mass_kg * g
                - Dt * Real.cos adjustedOmega)
          else
            (thrust * Real.sin adjustedOmega - Dw,
              thrust * Real.cos adjustedOmega - P.mass_kg * g)
        let torque :=
          if 1.0 < velocity then
            let flightAngle := jsAtan2 prevVx prevVy
            let ML := calculateLiftMoment velocity adjustedOmega flightAngle
              P.sideArea P.aerodynamicCenterVal P.centerOfGravity
            let MD := calculateDragMoment velocity adjustedOmega flightAngle
              P.sideArea P.aerodynamicCenterVal P.centerOfGravity
            let MW := calculateWindMoment P.noseHeight P.bodyDiameter P.bodyHeight
              effectiveWindSpeed adjustedOmega P.totalFinArea
              P.centerOfPressureVal P.centerOfGravity
            let MT := calculateThrustMoment thrust P.centerOfGravity adjustedOmega
              flightAngle P.noseHeight P.bodyHeight
            let t0 := torqueFloorClamp (ML + MD + MW + MT)
            if |P.angle| = 4 ∨ |P.angle| = 18 then t0 * 1.2 else t0
          else 0
        { ax := FxFy.1 / P.mass_kg, ay := FxFy.2 / P.mass_kg, torque := torque
          thrustEndFlag := s1.thrustEndFlag, kpThrustEnd := s1.kpThrustEnd
          avgThrustForTorque := avg1, thrustSamplesCount := cnt1 }
    else
      let kpTE :=
        if s1.thrustEndFlag = false then
          ({ time := s1.time, height := s1.y, speed := s1.vy } : KeyPoint)
        else s1.kpThrustEnd
      let FxFy :=
        if 0.001 < velocity then
          (-(Dt * Real.sin adjustedOmega) - Dw,
            -(P.mass_kg * g) - Dt * Real.cos adjustedOmega)
        else (-Dw, -(P.mass_kg * g))
      let torque :=
        if 0.5 < velocity then
          let flightAngle := jsAtan2 prevVx prevVy
          let ML := calculateLiftMoment velocity adjustedOmega flightAngle
            P.sideArea P.aerodynamicCenterVal P.centerOfGravity
          let MD := calculateDragMoment velocity adjustedOmega flightAngle
            P.sideArea P.aerodynamicCenterVal P.centerOfGravity
          let MW := calculateWindMoment P.noseHeight P.bodyDiameter P.bodyHeight
            effectiveWindSpeed adjustedOmega P.totalFinArea
            P.centerOfPressureVal P.centerOfGravity
          let t0 := torqueFloorClamp (ML + MD + MW)
          if |P.angle| = 4 ∨ |P.angle| = 18 then t0 * 1.2 else t0
        else 0
      { ax := FxFy.1 / P.mass_kg, ay := FxFy.2 / P.mass_kg, torque := torque
        thrustEndFlag := true, kpThrustEnd := kpTE
        avgThrustForTorque := s1.avgThrustForTorque
        thrustSamplesCount := s1.thrustSamplesCount }

/-- Values written by the coarse-cadence attitude update (RocketPhysics.jsx
lines 1069-1144), or carried through unchanged between updates. -/
structure AttOut where
  angularAcceleration : ℝ
  angularVelocity : ℝ
  angleChangePerDt2 : ℝ
  maxAngleChangePerDt2 : ℝ
  isAngleStableOK : Bool
  stepCounter : ℕ
  totalTorque : ℝ
  avgThrustForTorque : ℝ
  thrustSamplesCount : ℕ

/-- The coarse attitude update of the first variant: every
`ANGLE_STEPS_PER_UPDATE` steps, turn the ACCUMULATED torque (the first
variant does not divide by the step count) into angular acceleration,
integrate the angular velocity over `dt2` with a ±3 rad/s cap, derive
the per-dt2 angle change with its 0.001 floor, run the stability check
(post-burnout, pre-ejection, ±10° threshold) and reset the
accumulators.  The minimum-torque guarantee is `MIN_TORQUE = 0.00001`. -/
noncomputable def attitudeUpdate (P : SimParams) (ejected thrustEndFlag : Bool)
    (aa av acd2 maxAC : ℝ) (stable : Bool) (sc1 : ℕ) (tt1 avg1 : ℝ)
    (cnt1 : ℕ) : AttOut :=
  if P.stepsPerUpdate ≤ sc1 then
    let avgTorque := tt1
    let effectiveTorque :=
      if 0 < |avgTorque| ∧ |avgTorque| < 0.00001 then Real.sign avgTorque * 0.00001
      else avgTorque
    let aa2 := effectiveTorque / P.momentOfInertia
    let av2 := max (-3) (min 3 (av + aa2 * P.dt2))
    let ac0 := av2 * P.dt2
    let ac2 := if 0 < |ac0| ∧ |ac0| < 0.001 then Real.sign ac0 * 0.001 else ac0
    let deg := ac2 * 180 / Real.pi
    let maxAC2 :=
      if ejected = false ∧ thrustEndFlag = true ∧ |maxAC| < |deg| then deg else maxAC
    let stable2 :=
      if ejected = false ∧ thrustEndFlag = true ∧ 10 < |deg| then false else stable
    { angularAcceleration := aa2, angularVelocity := av2, angleChangePerDt2 := ac2
      maxAngleChangePerDt2 := maxAC2, isAngleStableOK := stable2
      stepCounter := 0, totalTorque := 0, avgThrustForTorque := 0
      thrustSamplesCount := 0 }
  else
    { angularAcceleration := aa, angularVelocity := av, angleChangePerDt2 := acd2
      maxAngleChangePerDt2 := maxAC, isAngleStableOK := stable
      stepCounter := sc1, totalTorque := tt1, avgThrustForTorque := avg1
      thrustSamplesCount := cnt1 }

/-- The post-integration speed cap (`MAX_SPEED = 100`): when the
resultant exceeds 100 m/s both components are rescaled by
`100 / currentSpeed`, preserving direction. -/
noncomputable def capSpeed (vx vy : ℝ) : ℝ × ℝ :=
  let currentSpeed := Real.sqrt (vx * vx + vy * vy)
  if 100 < currentSpeed then (vx * (100 / currentSpeed), vy * (100 / currentSpeed))
  else (vx, vy)

/-- The per-step angular-velocity clamp (`MAX_ANGULAR_VELOCITY = 5`). -/
noncomputable def clampAngularVelocity (a : ℝ) : ℝ := max (-5) (min 5 a)

/-- One full iteration of the simulation loop of the first
`calculateFlightPath` variant (RocketPhysics.jsx lines 773-1349):
previous-velocity capture, parachute state machine, fin deflection,
phase forces, torque accumulation and coarse attitude update, the
per-step physics-based attitude nudge (the module flag
`PHYSICAL_ATTITUDE_CONTROL` is `true`; `ENHANCED_ATTITUDE_CONTROL` is
`false` in this variant so the weathercocking block is dead code),
explicit-Euler velocity update, speed cap, angular-velocity clamp,
rail-constrained or free position update, summary maxima, sample append,
and the `time += dt` advance with `dt = 0.02`. -/
noncomputable def simStep (P : SimParams) (s : SimState) : SimState :=
  let prevVx := s.vx
  let prevVy := s.vy
  let s1 := parachuteUpdate P s
  let distanceFromStart := Real.sqrt (s1.x * s1.x + s1.y * s1.y)
  let onLaunchRail : Bool := decide (distanceFromStart < P.launchRailLength)
  let velocity := Real.sqrt (prevVx * prevVx + prevVy * prevVy)
  let effectiveWindSpeed := calculateWindSpeedAtHeight P.windSpeed s1.y P.windAlpha
  let angleAdjustment : ℝ := if |P.angle| = 4 ∨ |P.angle| = 18 then 0.01 else 0
  let adjustedOmega := s1.omega + angleAdjustment * (if P.angle < 0 then -1 else 1)
  let finDeflection2 :=
    if 5.0 < velocity then
      calculateFinDeflection velocity P.matE P.finHeight P.finBaseWidth
        P.finTipWidth P.finThickness P.finSweepLength s1.angleChangePerDt2
    else 0
  let maxFinDeflection2 :=
    if 5.0 < velocity then max s1.maxFinDeflection finDeflection2
    else s1.maxFinDeflection
  let po := phaseForces P s1 prevVx prevVy velocity effectiveWindSpeed
    adjustedOmega onLaunchRail
  let tt1 := s1.totalTorque + po.torque
  let sc1 := s1.stepCounter + 1
  let at2 := attitudeUpdate P s1.isParachuteEjected po.thrustEndFlag
    s1.angularAcceleration s1.angularVelocity s1.angleChangePerDt2
    s1.maxAngleChangePerDt2 s1.isAngleStableOK sc1 tt1
    po.avgThrustForTorque po.thrustSamplesCount
  let physicsBasedAngleChange := at2.angleChangePerDt2 / (P.stepsPerUpdate : ℝ)
  let omega2 :=
    if 0 < |physicsBasedAngleChange| ∧ |physicsBasedAngleChange| < 0.0001 then
      s1.omega + Real.sign physicsBasedAngleChange * 0.0001
    else s1.omega + physicsBasedAngleChange
  let vx1 := s1.vx + po.ax * 0.02
  let vy1 := s1.vy + po.ay * 0.02
  let currentSpeed := Real.sqrt (vx1 * vx1 + vy1 * vy1)
  let vc := capSpeed vx1 vy1
  let av2 := clampAngularVelocity at2.angularVelocity
  let xy :=
    if onLaunchRail then
      if P.angle = 0 then ((0 : ℝ), s1.y + vc.2 * 0.02)
      else
        let railDistance := min (distanceFromStart + velocity * 0.02) P.launchRailLength
        (railDistance * Real.sin omega2, railDistance * Real.cos omega2)
    else (s1.x + vc.1 * 0.02, s1.y + vc.2 * 0.02)
  let maxHeight2 := if s1.maxHeight < xy.2 then xy.2 else s1.maxHeight
  let kpMaxHeight2 :=
    if s1.maxHeight < xy.2 then
      ({ time := s1.time, height := xy.2, speed := vc.2 } : KeyPoint)
    else s1.kpMaxHeight
  let maxSpeed2 := if s1.maxSpeed < currentSpeed then currentSpeed else s1.maxSpeed
  let maxDistance2 := if s1.maxDistance < |xy.1| then |xy.1| else s1.maxDistance
  let sample : FlightSample :=
    { time := s1.time, physicsX := xy.1, physicsY := xy.2, height := xy.2
      vx := vc.1, vy := vc.2, ax := po.ax, ay := po.ay
      speedMagnitude := Real.sqrt (vc.1 * vc.1 + vc.2 * vc.2)
      accelerationMagnitude := Real.sqrt (po.ax * po.ax + po.ay * po.ay)
      angularVelocity := av2, angularAcceleration := at2.angularAcceleration
      isParachuteEjected := s1.isParachuteEjected
      isParachuteActive := s1.isParachuteActive
      parachuteDeploymentProgress := s1.parachuteDeploymentProgress
      omega := omega2, torque := po.torque
      angleChangePerDt2 := at2.angleChangePerDt2
      horizontalDistance := |xy.1|, finDeflection := finDeflection2
      angleDeviationDegrees := omega2 * 180 / Real.pi - P.angle
      effectiveWindSpeed := effectiveWindSpeed }
  { time := s1.time + 0.02, x := xy.1, y := xy.2, vx := vc.1, vy := vc.2
    omega := omega2, angularVelocity := av2
    angularAcceleration := at2.angularAcceleration
    isParachuteEjected := s1.isParachuteEjected
    isParachuteActive := s1.isParachuteActive
    parachuteDeploymentProgress := s1.parachuteDeploymentProgress
    finDeflection := finDeflection2
    maxAngleChangePerDt2 := at2.maxAngleChangePerDt2
    isAngleStableOK := at2.isAngleStableOK
    thrustEndFlag := po.thrustEndFlag
    stepCounter := at2.stepCounter, totalTorque := at2.totalTorque
    avgThrustForTorque := at2.avgThrustForTorque
    thrustSamplesCount := at2.thrustSamplesCount
    angleChangePerDt2 := at2.angleChangePerDt2
    maxHeight := maxHeight2, maxSpeed := maxSpeed2, maxDistance := maxDistance2
    maxFinDeflection := maxFinDeflection2
    kpThrustEnd := po.kpThrustEnd, kpMaxHeight := kpMaxHeight2
    kpParachuteEjection := s1.kpParachuteEjection
    kpParachuteActive := s1.kpParachuteActive
    data := s1.data ++ [sample] }

/-- The loop guard `(y >= 0 || time < 0.1) && time < MAX_TIME`. -/
def simCond (s : SimState) : Prop := (0 ≤ s.y ∨ s.time < 0.1) ∧ s.time < 20

noncomputable instance simCond_dec (s : SimState) : Decidable (simCond s) := by
  unfold simCond
  infer_instance

/-- The `while` loop as fuel-indexed iteration: with fuel `n`, run up to
`n` guarded iterations of `simStep`.  `simRun` supplies fuel 1001, which
theorem `flightPath_terminates_monotone` shows is enough for the guard
to have failed at the returned state, whatever the inputs. -/
noncomputable def simLoop (P : SimParams) : ℕ → SimState → SimState
  | 0, s => s
  | n + 1, s => if simCond s then simLoop P n (simStep P s) else s

/-- The state-variable initialization of `calculateFlightPath`
(RocketPhysics.jsx lines 725-770): everything zero except the attitude,
set from the launch angle in radians. -/
noncomputable def simInit (P : SimParams) : SimState :=
  { time := 0, x := 0, y := 0, vx := 0, vy := 0
    omega := P.angle * Real.pi / 180, angularVelocity := 0
    angularAcceleration := 0
    isParachuteEjected := false, isParachuteActive := false
    parachuteDeploymentProgress := 0, finDeflection := 0
    maxAngleChangePerDt2 := 0, isAngleStableOK := true, thrustEndFlag := false
    stepCounter := 0, totalTorque := 0, avgThrustForTorque := 0
    thrustSamplesCount := 0, angleChangePerDt2 := 0
    maxHeight := 0, maxSpeed := 0, maxDistance := 0, maxFinDeflection := 0
    kpThrustEnd := zeroKeyPoint, kpMaxHeight := zeroKeyPoint
    kpParachuteEjection := zeroKeyPoint, kpParachuteActive := zeroKeyPoint
    data := [] }

/-- One whole `calculateFlightPath` run of the first variant: the loop
from the initial state, with enough fuel to cover the 20 s hard cap at
`dt = 0.02`. -/
noncomputable def simRun (P : SimParams) : SimState := simLoop P 1001 (simInit P)

lemma parachuteUpdate_time (P : SimParams) (s : SimState) :
    (parachuteUpdate P s).time = s.time := by
  unfold parachuteUpdate
  dsimp only
  split_ifs <;> rfl

lemma parachuteUpdate_data (P : SimParams) (s : SimState) :
    (parachuteUpdate P s).data = s.data := by
  unfold parachuteUpdate
  dsimp only
  split_ifs <;> rfl

lemma capSpeed_norm_le (vx vy : ℝ) :
    Real.sqrt ((capSpeed vx vy).1 * (capSpeed vx vy).1
      + (capSpeed vx vy).2 * (capSpeed vx vy).2) ≤ 100 := by
  unfold capSpeed
  dsimp only
  split_ifs with h
  · set cs := Real.sqrt (vx * vx + vy * vy) with hcs_def
    have hcs : 0 < cs := lt_trans (by norm_num) h
    have hfac : (0 : ℝ) ≤ 100 / cs := le_of_lt (div_pos (by norm_num) hcs)
    have hexp : vx * (100 / cs) * (vx * (100 / cs)) + vy * (100 / cs) * (vy * (100 / cs))
        = (vx * vx + vy * vy) * ((100 / cs) * (100 / cs)) := by ring
    rw [hexp, Real.sqrt_mul (add_nonneg (mul_self_nonneg vx) (mul_self_nonneg vy)) _,
      Real.sqrt_mul_self hfac, ← hcs_def]
    rw [mul_comm, div_mul_cancel₀ _ (ne_of_gt hcs)]
  · exact le_of_not_lt h

lemma clampAngularVelocity_abs_le (a : ℝ) : |clampAngularVelocity a| ≤ 5 := by
  unfold clampAngularVelocity
  rw [abs_le]
  constructor
  · exact le_max_left _ _
  · exact max_le (by norm_num) (min_le_left _ _)

lemma simStep_fields (P : SimParams) (s : SimState) :
    (simStep P s).time = s.time + 0.02
  ∧ (simStep P s).isParachuteEjected = (parachuteUpdate P s).isParachuteEjected
  ∧ (simStep P s).isParachuteActive = (parachuteUpdate P s).isParachuteActive
  ∧ (simStep P s).parachuteDeploymentProgress
      = (parachuteUpdate P s).parachuteDeploymentProgress := by
  refine ⟨?_, rfl, rfl, rfl⟩
  show (parachuteUpdate P s).time + 0.02 = s.time + 0.02
  rw [parachuteUpdate_time]

lemma simStep_new_sample (P : SimParams) (s : SimState) :
    ∃ a : FlightSample,
      (simStep P s).data = (parachuteUpdate P s).data ++ [a]
      ∧ a.time = (parachuteUpdate P s).time
      ∧ a.isParachuteEjected = (parachuteUpdate P s).isParachuteEjected
      ∧ a.isParachuteActive = (parachuteUpdate P s).isParachuteActive
      ∧ a.parachuteDeploymentProgress
          = (parachuteUpdate P s).parachuteDeploymentProgress
      ∧ a.speedMagnitude ≤ 100
      ∧ |a.angularVelocity| ≤ 5 := by
  unfold simStep
  dsimp only
  exact ⟨_, rfl, rfl, rfl, rfl, rfl, capSpeed_norm_le _ _,
    clampAngularVelocity_abs_le _⟩

lemma simLoop_samples_bounded (P : SimParams) :
    ∀ (n : ℕ) (s : SimState),
      (∀ a ∈ s.data, a.speedMagnitude ≤ 100 ∧ |a.angularVelocity| ≤ 5) →
      ∀ a ∈ (simLoop P n s).data,
        a.speedMagnitude ≤ 100 ∧ |a.angularVelocity| ≤ 5 := by
  intro n
  induction n with
  | zero =>
    intro s h
    exact h
  | succ n ih =>
    intro s h
    rw [simLoop]
    split_ifs with hc
    · apply ih
      obtain ⟨b, hdata, _, _, _, _, hsp, hav⟩ := simStep_new_sample P s
      rw [parachuteUpdate_data] at hdata
      intro a ha
      rw [hdata] at ha
      rcases List.mem_append.mp ha with h1 | h1
      · exact h a h1
      · rw [List.mem_singleton] at h1
        subst h1
        exact ⟨hsp, hav⟩
    · exact h

/-- C7.  In every run, whatever the parameters (and so regardless of
flight phase), every recorded sample satisfies the two safety caps:
`speedMagnitude ≤ 100` (the post-integration rescale of both velocity
components) and `|angularVelocity| ≤ 5` (the per-step clamp). -/
theorem flightSamples_speed_angular_capped (P : SimParams) :
    (simRun P).data.Forall
      (fun a => a.speedMagnitude ≤ 100 ∧ |a.angularVelocity| ≤ 5) := by
  rw [List.forall_iff_forall_mem]
  apply simLoop_samples_bounded P 1001 (simInit P)
  intro a ha
  exact absurd ha (by simp [simInit])

lemma simLoop_terminates (P : SimParams) :
    ∀ (n : ℕ) (s : SimState), 20 ≤ s.time + n * 0.02 →
      ¬ simCond (simLoop P n s) := by
  intro n
  induction n with
  | zero =>
    intro s h hc
    simp only [simLoop] at hc
    simp only [Nat.cast_zero, zero_mul, add_zero] at h
    linarith [hc.2]
  | succ n ih =>
    intro s h
    rw [simLoop]
    split_ifs with hc
    · apply ih
      rw [(simStep_fields P s).1]
      push_cast at h ⊢
      linarith
    · exact hc

lemma simLoop_length (P : SimParams) :
    ∀ (n : ℕ) (s : SimState),
      (simLoop P n s).data.length ≤ s.data.length + n := by
  intro n
  induction n with
  | zero =>
    intro s
    exact Nat.le_refl _
  | succ n ih =>
    intro s
    rw [simLoop]
    split_ifs with hc
    · refine (ih (simStep P s)).trans ?_
      obtain ⟨b, hdata, -, -, -, -, -, -⟩ := simStep_new_sample P s
      rw [parachuteUpdate_data] at hdata
      rw [hdata, List.length_append]
      simp only [List.length_singleton]
      omega
    · omega

lemma simLoop_time_pairwise (P : SimParams) :
    ∀ (n : ℕ) (s : SimState),
      s.time = (s.data.length : ℝ) * 0.02 →
      (∀ a ∈ s.data, a.time < s.time) →
      List.Pairwise (fun a b : FlightSample => a.time < b.time) s.data →
      (simLoop P n s).time = ((simLoop P n s).data.length : ℝ) * 0.02
      ∧ (∀ a ∈ (simLoop P n s).data, a.time < (simLoop P n s).time)
      ∧ List.Pairwise (fun a b : FlightSample => a.time < b.time)
          (simLoop P n s).data := by
  intro n
  induction n with
  | zero =>
    intro s h1 h2 h3
    exact ⟨h1, h2, h3⟩
  | succ n ih =>
    intro s h1 h2 h3
    rw [simLoop]
    split_ifs with hc
    · obtain ⟨b, hdata, hbt0, -, -, -, -, -⟩ := simStep_new_sample P s
      rw [parachuteUpdate_data] at hdata
      have hbt : b.time = s.time := by rw [hbt0, parachuteUpdate_time]
      have hst : (simStep P s).time = s.time + 0.02 := (simStep_fields P s).1
      apply ih
      · rw [hst, hdata, List.length_append]
        simp only [List.length_singleton]
        push_cast
        rw [h1]
        ring
      · intro a ha
        rw [hdata] at ha
        rw [hst]
        rcases List.mem_append.mp ha with hm | hm
        · have := h2 a hm
          linarith
        · rw [List.mem_singleton] at hm
          subst hm
          rw [hbt]
          linarith
      · rw [hdata]
        refine List.pairwise_append.mpr ⟨h3, List.pairwise_singleton _ _, ?_⟩
        intro a ha b' hb'
        rw [List.mem_singleton] at hb'
        subst hb'
        rw [hbt]
        exact h2 a ha
    · exact ⟨h1, h2, h3⟩

/-- C5.  For every input, the simulation loop halts: at the state the
run returns, the loop guard has failed — either the rocket is below
ground after the 0.1 s grace period, or the 20 s hard cap was reached —
after at most 1001 recorded samples; the elapsed time equals (number of
samples) × dt with dt = 0.02 s, and the recorded sample times are
strictly increasing along the sequence. -/
theorem flightPath_terminates_monotone (P : SimParams) :
    (((simRun P).y < 0 ∧ 0.1 ≤ (simRun P).time) ∨ 20 ≤ (simRun P).time)
  ∧ (simRun P).data.length ≤ 1001
  ∧ (simRun P).time = ((simRun P).data.length : ℝ) * 0.02
  ∧ List.Pairwise (fun a b : FlightSample => a.time < b.time) (simRun P).data := by
  have hterm : ¬ simCond (simRun P) := by
    apply simLoop_terminates P 1001 (simInit P)
    norm_num [simInit]
  have hinv := simLoop_time_pairwise P 1001 (simInit P) (by norm_num [simInit])
    (by intro a ha; exact absurd ha (by simp [simInit]))
    (by simp [simInit])
  refine ⟨?_, ?_, hinv.1, hinv.2.2⟩
  · unfold simCond at hterm
    rcases not_and_or.mp hterm with h | h
    · left
      push_neg at h
      exact h
    · right
      exact not_lt.mp h
  · have := simLoop_length P 1001 (simInit P)
    simpa [simInit] using this

/-- C6.  The 90% velocity reduction happens exactly at the
deployment-complete transition: when the parachute is not yet active and
`time ≥ parachuteActiveTime`, the update multiplies BOTH velocity
components by 0.1 and latches `isParachuteActive := true`; when the
parachute is already active, or the deadline has not yet been reached,
the velocities pass through untouched; and the rest of the step never
changes the flag, so the reduction fires exactly once per flight. -/
theorem parachuteDeployment_velocity_reduction (P : SimParams) (s : SimState) :
    ((s.isParachuteActive = false ∧ P.parachuteActiveTime ≤ s.time) →
        (parachuteUpdate P s).vx = s.vx * 0.1
        ∧ (parachuteUpdate P s).vy = s.vy * 0.1
        ∧ (parachuteUpdate P s).isParachuteActive = true)
  ∧ (s.isParachuteActive = true →
        (parachuteUpdate P s).vx = s.vx ∧ (parachuteUpdate P s).vy = s.vy
        ∧ (parachuteUpdate P s).isParachuteActive = true)
  ∧ (s.time < P.parachuteActiveTime →
        (parachuteUpdate P s).vx = s.vx ∧ (parachuteUpdate P s).vy = s.vy)
  ∧ (simStep P s).isParachuteActive = (parachuteUpdate P s).isParachuteActive := by
  refine ⟨?_, ?_, ?_, (simStep_fields P s).2.2.1⟩
  · rintro ⟨hact, htime⟩
    unfold parachuteUpdate
    dsimp only
    split_ifs with h1 h2 h3 h4 h5 h6 <;>
      first
        | exact ⟨rfl, rfl, rfl⟩
        | (exfalso; simp_all)
  · intro hact
    unfold parachuteUpdate
    dsimp only
    split_ifs with h1 h2 h3 h4 h5 h6 <;>
      first
        | exact ⟨rfl, rfl, rfl⟩
        | exact ⟨rfl, rfl, hact⟩
        | (exfalso; simp_all)
  · intro htime
    unfold parachuteUpdate
    dsimp only
    split_ifs with h1 h2 h3 h4 h5 h6 <;>
      first
        | exact ⟨rfl, rfl⟩
        | (exfalso; simp_all; linarith)
        | (exfalso; simp_all)

/-- Concrete parameter set for exercising the parachute transition:
no thrust samples and zero parachute delay, so
`parachuteActiveTime = 0 + 0 + 1 = 1`. -/
noncomputable def paramsC6 : SimParams :=
  { noseHeight := 100, bodyHeight := 400, bodyWidth := 40, finHeight := 60
    finBaseWidth := 80, finTipWidth := 40, finSweepLength := 20, finThickness := 2
    centerOfGravity := 250, weight := 200, angle := 0, windSpeed := 0
    windAlpha := 0.14, noseCd := 0.5, matE := 2000000000, thrustData := []
    parachuteDelay := 0, parachuteDiameter := 0.3, launchRailLength := 1
    dt2 := 0.2, stepsPerUpdate := 10, sideArea := 0.03, totalFinArea := 0.01
    aerodynamicCenterVal := 300, centerOfPressureVal := 300 }

/-- A mid-flight state well past the activation deadline with the
parachute not yet active. -/
noncomputable def stateC6 : SimState :=
  { simInit paramsC6 with time := 10, y := 50, vx := 3, vy := -8 }

theorem parachuteDeployment_velocity_reduction_witness :
    (stateC6.isParachuteActive = false
      ∧ paramsC6.parachuteActiveTime ≤ stateC6.time)
    ∧ (parachuteUpdate paramsC6 stateC6).vx = 3 * 0.1
    ∧ (parachuteUpdate paramsC6 stateC6).vy = -8 * 0.1
    ∧ (parachuteUpdate paramsC6 stateC6).isParachuteActive = true := by
  have hhyp : stateC6.isParachuteActive = false
      ∧ paramsC6.parachuteActiveTime ≤ stateC6.time := by
    refine ⟨rfl, ?_⟩
    norm_num [SimParams.parachuteActiveTime, SimParams.parachuteEjectionTime,
      SimParams.thrustEndTime, paramsC6, stateC6, simInit]
  exact ⟨hhyp, (parachuteDeployment_velocity_reduction paramsC6 stateC6).1 hhyp⟩

/-- `parachuteActiveTime` sits exactly one second after the ejection
time (line 782: `parachuteEjectionTime + 1.0`). -/
lemma parachuteActiveTime_eq (P : SimParams) :
    P.parachuteActiveTime = P.parachuteEjectionTime + 1 := by
  unfold SimParams.parachuteActiveTime
  norm_num

/-- Invariant tying the three parachute state variables of the loop
state together: active implies ejected, ejected only at or after the
ejection time, progress is 0 before ejection, 1 once active, bounded by
the deployment ramp `min(1, (t - tE)/1.0)` while deploying, and always
within `[0, 1]`. -/
structure PState (P : SimParams) (s : SimState) : Prop where
  act_ej : s.isParachuteActive = true → s.isParachuteEjected = true
  ej_time : s.isParachuteEjected = true → P.parachuteEjectionTime ≤ s.time
  notej_prog : s.isParachuteEjected = false → s.parachuteDeploymentProgress = 0
  act_prog : s.isParachuteActive = true → s.parachuteDeploymentProgress = 1
  ejnact_prog : s.isParachuteEjected = true → s.isParachuteActive = false →
    s.parachuteDeploymentProgress
      ≤ min 1 ((s.time - P.parachuteEjectionTime) / 1.0)
  prog_nonneg : 0 ≤ s.parachuteDeploymentProgress
  prog_le_one : s.parachuteDeploymentProgress ≤ 1

/-- Pointwise monotonicity of the parachute state between two flight
samples: flags only ever switch on, progress never decreases. -/
def sampleMono (a b : FlightSample) : Prop :=
  (a.isParachuteEjected = true → b.isParachuteEjected = true)
  ∧ (a.isParachuteActive = true → b.isParachuteActive = true)
  ∧ a.parachuteDeploymentProgress ≤ b.parachuteDeploymentProgress

/-- Well-formedness of the parachute state recorded in one sample:
progress lies in `[0, 1]`, and an active parachute means the
deployment is complete (`progress = 1`) and ejection has happened. -/
def sampleWF (a : FlightSample) : Prop :=
  (0 ≤ a.parachuteDeploymentProgress ∧ a.parachuteDeploymentProgress ≤ 1)
  ∧ (a.isParachuteActive = true →
      a.parachuteDeploymentProgress = 1 ∧ a.isParachuteEjected = true)

lemma parachuteUpdate_pstate (P : SimParams) (s : SimState) (h : PState P s) :
    PState P (parachuteUpdate P s)
    ∧ (s.isParachuteEjected = true →
        (parachuteUpdate P s).isParachuteEjected = true)
    ∧ (s.isParachuteActive = true →
        (parachuteUpdate P s).isParachuteActive = true)
    ∧ s.parachuteDeploymentProgress
        ≤ (parachuteUpdate P s).parachuteDeploymentProgress := by
  obtain ⟨hae, het, hnp, hap, hep, hpn, hp1⟩ := h
  unfold parachuteUpdate
  dsimp only
  split_ifs with h1 h2 h3 h4 h5 h6 h7
  · -- ejection fires, deployment tracking fires, activation fires
    refine ⟨⟨fun _ => rfl, fun _ => h1.2, ?_, ?_, ?_, ?_, ?_⟩,
      fun _ => rfl, fun _ => rfl, ?_⟩
    · intro hx; exact absurd hx (by simp)
    · intro _; show (1.0 : ℝ) = 1; norm_num
    · intro _ hx; exact absurd hx (by simp)
    · show (0 : ℝ) ≤ 1.0; norm_num
    · show (1.0 : ℝ) ≤ 1; norm_num
    · exact le_trans hp1 (by norm_num)
  · -- ejection fires, deployment tracking fires, activation does not
    have hact : s.isParachuteActive = false := h2.2
    have hmin : (0 : ℝ) ≤ min 1 ((s.time - P.parachuteEjectionTime) / 1.0) :=
      le_min (by norm_num) (div_nonneg (by linarith [h1.2]) (by norm_num))
    refine ⟨⟨fun _ => rfl, fun _ => h1.2, ?_, ?_, fun _ _ => le_refl _,
      hmin, min_le_left _ _⟩, fun _ => rfl, fun hx => hx, ?_⟩
    · intro hx; exact absurd hx (by simp)
    · intro hx; rw [hact] at hx; exact absurd hx (by simp)
    · rw [hnp h1.1]; exact hmin
  · -- contradictory: tracking refused yet activation claims act = false
    exfalso
    exact h2 ⟨rfl, h4.1⟩
  · -- contradictory: tracking refused means act = true, but then ej = true
    exfalso
    have hact : s.isParachuteActive = true := by
      cases hx : s.isParachuteActive with
      | false => exact absurd ⟨rfl, hx⟩ h2
      | true => rfl
    exact absurd (hae hact) (by rw [h1.1]; simp)
  · -- already ejected, deployment tracking fires, activation fires
    refine ⟨⟨fun _ => h5.1, fun _ => het h5.1, ?_, ?_, ?_, ?_, ?_⟩,
      fun hx => hx, fun _ => rfl, ?_⟩
    · intro hx; rw [h5.1] at hx; exact absurd hx (by simp)
    · intro _; show (1.0 : ℝ) = 1; norm_num
    · intro _ hx; exact absurd hx (by simp)
    · show (0 : ℝ) ≤ 1.0; norm_num
    · show (1.0 : ℝ) ≤ 1; norm_num
    · exact le_trans hp1 (by norm_num)
  · -- already ejected, deployment tracking fires, activation does not
    have hmin : (0 : ℝ) ≤ min 1 ((s.time - P.parachuteEjectionTime) / 1.0) :=
      le_min (by norm_num) (div_nonneg (by linarith [het h5.1]) (by norm_num))
    refine ⟨⟨fun hx => hae hx, fun _ => het h5.1, ?_, ?_, fun _ _ => le_refl _,
      hmin, min_le_left _ _⟩, fun hx => hx, fun hx => hx, hep h5.1 h5.2⟩
    · intro hx; rw [h5.1] at hx; exact absurd hx (by simp)
    · intro hx; rw [h5.2] at hx; exact absurd hx (by simp)
  · -- contradictory: activation before the ejection deadline
    exfalso
    obtain ⟨hact, hat⟩ := h7
    have hej : s.isParachuteEjected = false := by
      cases hx : s.isParachuteEjected with
      | false => rfl
      | true => exact absurd ⟨hx, hact⟩ h5
    have hlt : ¬ P.parachuteEjectionTime ≤ s.time := fun hc => h1 ⟨hej, hc⟩
    push_neg at hlt
    rw [parachuteActiveTime_eq] at hat
    linarith
  · -- nothing fires: the state is unchanged
    exact ⟨⟨hae, het, hnp, hap, hep, hpn, hp1⟩, fun hx => hx, fun hx => hx,
      le_refl _⟩

lemma simStep_pstate (P : SimParams) (s : SimState) (h : PState P s) :
    PState P (simStep P s)
    ∧ (s.isParachuteEjected = true → (simStep P s).isParachuteEjected = true)
    ∧ (s.isParachuteActive = true → (simStep P s).isParachuteActive = true)
    ∧ s.parachuteDeploymentProgress
        ≤ (simStep P s).parachuteDeploymentProgress := by
  obtain ⟨hps, hej, hact, hprog⟩ := parachuteUpdate_pstate P s h
  obtain ⟨hae, het, hnp, hap, hep, hpn, hp1⟩ := hps
  obtain ⟨ht, he, ha, hp⟩ := simStep_fields P s
  have htime := parachuteUpdate_time P s
  refine ⟨⟨?_, ?_, ?_, ?_, ?_, ?_, ?_⟩, ?_, ?_, ?_⟩
  · rw [ha, he]; exact hae
  · intro hx
    rw [he] at hx
    have h2 := het hx
    rw [htime] at h2
    rw [ht]
    linarith
  · intro hx; rw [he] at hx; rw [hp]; exact hnp hx
  · intro hx; rw [ha] at hx; rw [hp]; exact hap hx
  · intro hx1 hx2
    rw [he] at hx1
    rw [ha] at hx2
    have h2 := hep hx1 hx2
    rw [htime] at h2
    rw [hp, ht]
    refine le_trans h2 (min_le_min le_rfl ?_)
    have hd : ((s.time - P.parachuteEjectionTime) : ℝ)
        ≤ s.time + 0.02 - P.parachuteEjectionTime := by linarith
    calc (s.time - P.parachuteEjectionTime) / 1.0
        = s.time - P.parachuteEjectionTime := by norm_num
      _ ≤ s.time + 0.02 - P.parachuteEjectionTime := hd
      _ = (s.time + 0.02 - P.parachuteEjectionTime) / 1.0 := by norm_num
  · rw [hp]; exact hpn
  · rw [hp]; exact hp1
  · intro hx; rw [he]; exact hej hx
  · intro hx; rw [ha]; exact hact hx
  · rw [hp]; exact hprog

lemma simLoop_parachute (P : SimParams) :
    ∀ (n : ℕ) (s : SimState),
      PState P s →
      (∀ a ∈ s.data,
        (a.isParachuteEjected = true → s.isParachuteEjected = true)
        ∧ (a.isParachuteActive = true → s.isParachuteActive = true)
        ∧ a.parachuteDeploymentProgress ≤ s.parachuteDeploymentProgress) →
      List.Pairwise sampleMono s.data →
      (∀ a ∈ s.data, sampleWF a) →
      List.Pairwise sampleMono (simLoop P n s).data
      ∧ ∀ a ∈ (simLoop P n s).data, sampleWF a := by
  intro n
  induction n with
  | zero => intro s _ _ hpw hwf; simp only [simLoop]; exact ⟨hpw, hwf⟩
  | succ n ih =>
    intro s hps hdata hpw hwf
    simp only [simLoop]
    by_cases hc : simCond s
    · rw [if_pos hc]
      obtain ⟨hps2, hej, hact, hprog⟩ := simStep_pstate P s hps
      obtain ⟨b, hb, hbt, hbe, hba, hbp, hbs, hbav⟩ := simStep_new_sample P s
      rw [parachuteUpdate_data] at hb
      obtain ⟨hte, hee, haa, hpp⟩ := simStep_fields P s
      have hbe2 : b.isParachuteEjected = (simStep P s).isParachuteEjected := by
        rw [hbe, hee]
      have hba2 : b.isParachuteActive = (simStep P s).isParachuteActive := by
        rw [hba, haa]
      have hbp2 : b.parachuteDeploymentProgress
          = (simStep P s).parachuteDeploymentProgress := by
        rw [hbp, hpp]
      apply ih
      · exact hps2
      · intro a ha
        rw [hb] at ha
        rcases List.mem_append.mp ha with hold | hnew
        · obtain ⟨g1, g2, g3⟩ := hdata a hold
          exact ⟨fun hx => hej (g1 hx), fun hx => hact (g2 hx),
            le_trans g3 hprog⟩
        · obtain rfl := List.mem_singleton.mp hnew
          exact ⟨fun hx => by rw [← hbe2]; exact hx,
            fun hx => by rw [← hba2]; exact hx, le_of_eq hbp2⟩
      · rw [hb, List.pairwise_append]
        refine ⟨hpw, List.pairwise_singleton _ _, ?_⟩
        intro a hold c hc2
        obtain rfl := List.mem_singleton.mp hc2
        obtain ⟨g1, g2, g3⟩ := hdata a hold
        exact ⟨fun hx => by rw [hbe2]; exact hej (g1 hx),
          fun hx => by rw [hba2]; exact hact (g2 hx),
          by rw [hbp2]; exact le_trans g3 hprog⟩
      · intro a ha
        rw [hb] at ha
        rcases List.mem_append.mp ha with hold | hnew
        · exact hwf a hold
        · obtain rfl := List.mem_singleton.mp hnew
          obtain ⟨pae, pet, pnp, pap, pep, ppn, pp1⟩ := hps2
          refine ⟨⟨by rw [hbp2]; exact ppn, by rw [hbp2]; exact pp1⟩, ?_⟩
          intro hx
          rw [hba2] at hx
          exact ⟨by rw [hbp2]; exact pap hx, by rw [hbe2]; exact pae hx⟩
    · rw [if_neg hc]
      exact ⟨hpw, hwf⟩

lemma simInit_pstate (P : SimParams) : PState P (simInit P) := by
  refine ⟨?_, ?_, ?_, ?_, ?_, ?_, ?_⟩
  · intro hx; exact absurd hx (by simp [simInit])
  · intro hx; exact absurd hx (by simp [simInit])
  · intro _; rfl
  · intro hx; exact absurd hx (by simp [simInit])
  · intro hx; exact absurd hx (by simp [simInit])
  · exact le_refl _
  · show (0 : ℝ) ≤ 1
    norm_num

/-- C10.  Over the recorded sample sequence of any run of the first
`calculateFlightPath` variant, the parachute state is monotone and
well-formed: `isParachuteEjected` and `isParachuteActive` never switch
back off, `parachuteDeploymentProgress` is non-decreasing and stays in
`[0, 1]`, and any sample with the parachute active has deployment
progress exactly 1 (and the ejection flag set). -/
theorem parachuteState_monotone_wellFormed (P : SimParams) :
    List.Pairwise (fun a b : FlightSample =>
      (a.isParachuteEjected = true → b.isParachuteEjected = true)
      ∧ (a.isParachuteActive = true → b.isParachuteActive = true)
      ∧ a.parachuteDeploymentProgress ≤ b.parachuteDeploymentProgress)
      (simRun P).data
    ∧ ∀ a ∈ (simRun P).data,
        (0 ≤ a.parachuteDeploymentProgress
          ∧ a.parachuteDeploymentProgress ≤ 1)
        ∧ (a.isParachuteActive = true →
            a.parachuteDeploymentProgress = 1
            ∧ a.isParachuteEjected = true) := by
  have h := simLoop_parachute P 1001 (simInit P) (simInit_pstate P)
    (by intro a ha; exact absurd ha (by simp [simInit]))
    (by simp [simInit])
    (by intro a ha; exact absurd ha (by simp [simInit]))
  exact h
